import Mathlib

/-!
Shallow embedding of the three pydantic validation scripts of this
repository (`ex0/space_station.py`, `ex1/alien_contact.py`,
`ex2/space_crew.py`).

Modelling conventions:
* Python `str` is `String`, `int` is `Int`, `float` is `ℚ` (every numeric
  literal and comparison exercised by the programs is exactly
  representable, so rationals model the float semantics faithfully,
  including the true division in the experienced-crew rule),
  `bool` is `Bool`, `Optional[str]` is `Option String`, `datetime` is an
  opaque parsed value modelled as `Int` (the scripts never inspect it).
* A raw input field is `RawField α = Option (Except Unit α)`:
  `none` means the field is absent from the input mapping,
  `some (Except.error ())` means a value was supplied but type coercion
  (numeric parse, enum lookup, datetime parse) failed, and
  `some (Except.ok v)` means the value coerced to `v`.  The coercion
  functions themselves (string-to-datetime etc.) are external conversions
  and are not modelled further.
* Field validation follows pydantic: each field is checked independently
  (presence / default substitution, coercion, declared constraints) and
  the per-field errors are accumulated in declaration order; the
  `model_validator(mode="after")` hook runs only when no field error
  occurred, and raises on the first failing business rule.
* A crew list is modelled as a list of already-coerced `CrewMember`
  values whose per-member field validity is folded into the crew field's
  constraint; the per-element error records pydantic would attach are not
  needed by any property proved here.
-/

/-- One reported validation failure, following the error taxonomy:
a missing required field, a failed type coercion, a failed declared
constraint (each field-scoped), or a failed record-level business rule
(record-scoped, carrying the rule's fixed message). -/
inductive Violation where
  | missing (fieldName : String)
  | typeMismatch (fieldName : String)
  | constraint (fieldName : String)
  | rule (message : String)
deriving DecidableEq, Repr

/-- The name a violation is reported against; rule violations are
record-scoped. -/
def Violation.fieldName : Violation → String
  | .missing n => n
  | .typeMismatch n => n
  | .constraint n => n
  | .rule _ => "record"

/-- Whether a violation is a record-level rule violation. -/
def Violation.isRule : Violation → Bool
  | .rule _ => true
  | _ => false

/-- A raw input field: absent, present but uncoercible, or coerced. -/
def RawField (α : Type) : Type := Option (Except Unit α)

/-- A coerced raw value. -/
def RawField.val {α : Type} (v : α) : RawField α := some (Except.ok v)

/-- Check one required field: absent is a `missing` violation, a failed
coercion is a `typeMismatch`, and a coerced value must satisfy the
declared constraints. -/
def checkRequired {α : Type} (n : String) (ok : α → Bool) :
    RawField α → Except Violation α
  | none => Except.error (Violation.missing n)
  | some (Except.error _) => Except.error (Violation.typeMismatch n)
  | some (Except.ok v) =>
      if ok v then Except.ok v else Except.error (Violation.constraint n)

/-- Check one field that has a default: an absent field takes the default
(defaults are not re-checked, as in pydantic), a supplied value is
coerced and checked like a required field. -/
def checkDefault {α : Type} (n : String) (d : α) (ok : α → Bool) :
    RawField α → Except Violation α
  | none => Except.ok d
  | some (Except.error _) => Except.error (Violation.typeMismatch n)
  | some (Except.ok v) =>
      if ok v then Except.ok v else Except.error (Violation.constraint n)

/-- Error-accumulating application: combine the checks of the fields seen
so far with the next field's check, appending its violation (if any) to
the list.  This is the accumulation pydantic performs across fields. -/
def vap {α β : Type} : Except (List Violation) (α → β) →
    Except Violation α → Except (List Violation) β
  | Except.ok f, Except.ok a => Except.ok (f a)
  | Except.ok _, Except.error e => Except.error [e]
  | Except.error es, Except.ok _ => Except.error es
  | Except.error es, Except.error e => Except.error (es ++ [e])

/-- Run the record-level rule hook after a successful field phase; a rule
failure is reported as a single record-scoped violation.  Field-phase
errors are returned as is and the hook is never consulted for them. -/
def withRules {ρ : Type} (phase : Except (List Violation) ρ)
    (rules : ρ → Except String ρ) : Except (List Violation) ρ :=
  match phase with
  | Except.error es => Except.error es
  | Except.ok c =>
      match rules c with
      | Except.ok c' => Except.ok c'
      | Except.error m => Except.error [Violation.rule m]

/-- The violations carried by an accumulated result (`[]` on success). -/
def errsOf {β : Type} : Except (List Violation) β → List Violation
  | Except.ok _ => []
  | Except.error es => es

/-- The violations carried by a single field check (`[]` on success). -/
def errsOf1 {α : Type} : Except Violation α → List Violation
  | Except.ok _ => []
  | Except.error e => [e]

/-- Whether a single field check failed. -/
def isErr1 {α : Type} : Except Violation α → Bool
  | Except.ok _ => false
  | Except.error _ => true

theorem errsOf_vap {α β : Type} (F : Except (List Violation) (α → β))
    (x : Except Violation α) : errsOf (vap F x) = errsOf F ++ errsOf1 x := by
  cases F <;> cases x <;> simp [vap, errsOf, errsOf1]

theorem vap_eq_ok {α β : Type} {F : Except (List Violation) (α → β)}
    {x : Except Violation α} {b : β} (h : vap F x = Except.ok b) :
    ∃ f a, F = Except.ok f ∧ x = Except.ok a ∧ b = f a := by
  cases F <;> cases x <;> simp [vap] at h ⊢
  exact h.symm

theorem errsOf_of_ok {β : Type} {e : Except (List Violation) β} {b : β}
    (h : e = Except.ok b) : errsOf e = [] := by
  subst h; rfl

theorem errsOf_of_error {β : Type} {e : Except (List Violation) β}
    {es : List Violation} (h : e = Except.error es) : errsOf e = es := by
  subst h; rfl

theorem error_of_errsOf_ne_nil {β : Type} {e : Except (List Violation) β}
    (h : errsOf e ≠ []) : e = Except.error (errsOf e) := by
  cases e with
  | ok b => exact absurd rfl h
  | error es => rfl

theorem checkRequired_notRule {α : Type} {n : String} {ok : α → Bool}
    {x : RawField α} {v : Violation}
    (h : v ∈ errsOf1 (checkRequired n ok x)) : v.isRule = false := by
  match x with
  | none => simp [checkRequired, errsOf1] at h; subst h; rfl
  | some (Except.error _) => simp [checkRequired, errsOf1] at h; subst h; rfl
  | some (Except.ok w) =>
      by_cases hw : ok w <;> simp [checkRequired, hw, errsOf1] at h
      subst h; rfl

theorem checkDefault_notRule {α : Type} {n : String} {d : α} {ok : α → Bool}
    {x : RawField α} {v : Violation}
    (h : v ∈ errsOf1 (checkDefault n d ok x)) : v.isRule = false := by
  match x with
  | none => simp [checkDefault, errsOf1] at h
  | some (Except.error _) => simp [checkDefault, errsOf1] at h; subst h; rfl
  | some (Except.ok w) =>
      by_cases hw : ok w <;> simp [checkDefault, hw, errsOf1] at h
      subst h; rfl

theorem checkRequired_names {α : Type} (n : String) (ok : α → Bool)
    (x : RawField α) : (errsOf1 (checkRequired n ok x)).map Violation.fieldName
      = if isErr1 (checkRequired n ok x) then [n] else [] := by
  match x with
  | none => rfl
  | some (Except.error _) => rfl
  | some (Except.ok w) =>
      by_cases hw : ok w <;> simp [checkRequired, hw, errsOf1, isErr1,
        Violation.fieldName]

theorem checkRequired_idem {α : Type} {n : String} {ok : α → Bool}
    {x : RawField α} {v : α} (h : checkRequired n ok x = Except.ok v) :
    checkRequired n ok (RawField.val v) = Except.ok v := by
  match x with
  | none => simp [checkRequired] at h
  | some (Except.error _) => simp [checkRequired] at h
  | some (Except.ok w) =>
      by_cases hw : ok w <;> simp [checkRequired, hw] at h
      subst h; simp [checkRequired, RawField.val, hw]

theorem checkDefault_idem {α : Type} {n : String} {d : α} {ok : α → Bool}
    {x : RawField α} {v : α} (hd : ok d = true)
    (h : checkDefault n d ok x = Except.ok v) :
    checkDefault n d ok (RawField.val v) = Except.ok v := by
  match x with
  | none =>
      simp [checkDefault] at h
      subst h; simp [checkDefault, RawField.val, hd]
  | some (Except.error _) => simp [checkDefault] at h
  | some (Except.ok w) =>
      by_cases hw : ok w <;> simp [checkDefault, hw] at h
      subst h; simp [checkDefault, RawField.val, hw]

/-! ## `ex0/space_station.py`: `SpaceStation` -/

/-- The validated `SpaceStation` record of `ex0/space_station.py`. -/
structure SpaceStation where
  station_id : String
  name : String
  crew_size : Int
  power_level : ℚ
  oxygen_level : ℚ
  last_maintenance : Int
  is_operational : Bool
  notes : Option String
deriving DecidableEq, Repr

/-- Raw input mapping for a `SpaceStation`, one slot per declared field. -/
structure SpaceStationRaw where
  station_id : RawField String
  name : RawField String
  crew_size : RawField Int
  power_level : RawField ℚ
  oxygen_level : RawField ℚ
  last_maintenance : RawField Int
  is_operational : RawField Bool
  notes : RawField (Option String)

def SpaceStation.checkStationId (r : SpaceStationRaw) : Except Violation String :=
  checkRequired "station_id" (fun s => 3 ≤ s.length && s.length ≤ 10) r.station_id

def SpaceStation.checkName (r : SpaceStationRaw) : Except Violation String :=
  checkRequired "name" (fun s => 1 ≤ s.length && s.length ≤ 50) r.name

def SpaceStation.checkCrewSize (r : SpaceStationRaw) : Except Violation Int :=
  checkRequired "crew_size" (fun n => decide (1 ≤ n ∧ n ≤ 20)) r.crew_size

def SpaceStation.checkPowerLevel (r : SpaceStationRaw) : Except Violation ℚ :=
  checkRequired "power_level" (fun q => decide (0 ≤ q ∧ q ≤ 100)) r.power_level

def SpaceStation.checkOxygenLevel (r : SpaceStationRaw) : Except Violation ℚ :=
  checkRequired "oxygen_level" (fun q => decide (0 ≤ q ∧ q ≤ 100)) r.oxygen_level

def SpaceStation.checkLastMaintenance (r : SpaceStationRaw) : Except Violation Int :=
  checkRequired "last_maintenance" (fun _ => true) r.last_maintenance

def SpaceStation.checkIsOperational (r : SpaceStationRaw) : Except Violation Bool :=
  checkDefault "is_operational" true (fun _ => true) r.is_operational

def SpaceStation.checkNotes (r : SpaceStationRaw) : Except Violation (Option String) :=
  checkDefault "notes" none
    (fun o => match o with
      | none => true
      | some s => s.length ≤ 200) r.notes

/-- Field phase for `SpaceStation`: every field check runs and the
violations accumulate in declaration order. -/
def stationFieldPhase (r : SpaceStationRaw) : Except (List Violation) SpaceStation :=
  vap (vap (vap (vap (vap (vap (vap (vap (Except.ok SpaceStation.mk)
    (SpaceStation.checkStationId r)) (SpaceStation.checkName r))
    (SpaceStation.checkCrewSize r)) (SpaceStation.checkPowerLevel r))
    (SpaceStation.checkOxygenLevel r)) (SpaceStation.checkLastMaintenance r))
    (SpaceStation.checkIsOperational r)) (SpaceStation.checkNotes r)

/-- `SpaceStation` declares no record-level rules, so validation is just
the field phase. -/
def validateSpaceStation (r : SpaceStationRaw) : Except (List Violation) SpaceStation :=
  stationFieldPhase r

/-- The accumulated field-phase violations, in declaration order. -/
def stationFieldErrs (r : SpaceStationRaw) : List Violation :=
  errsOf1 (SpaceStation.checkStationId r) ++ errsOf1 (SpaceStation.checkName r) ++
  errsOf1 (SpaceStation.checkCrewSize r) ++ errsOf1 (SpaceStation.checkPowerLevel r) ++
  errsOf1 (SpaceStation.checkOxygenLevel r) ++ errsOf1 (SpaceStation.checkLastMaintenance r) ++
  errsOf1 (SpaceStation.checkIsOperational r) ++ errsOf1 (SpaceStation.checkNotes r)

theorem stationFieldPhase_errs (r : SpaceStationRaw) :
    errsOf (stationFieldPhase r) = stationFieldErrs r := by
  simp only [stationFieldPhase, stationFieldErrs, errsOf_vap]
  simp [errsOf]

/-! ## `ex1/alien_contact.py`: `AlienContact` -/

/-- The `ContactType` enum of `ex1/alien_contact.py`. -/
inductive ContactType where
  | radio
  | visual
  | physical
  | telepathic
deriving DecidableEq, Repr

/-- The validated `AlienContact` record of `ex1/alien_contact.py`. -/
structure AlienContact where
  contact_id : String
  timestamp : Int
  location : String
  contact_type : ContactType
  signal_strength : ℚ
  duration_minutes : Int
  witness_count : Int
  message_received : Option String
  is_verified : Bool
deriving DecidableEq, Repr

/-- Raw input mapping for an `AlienContact`. -/
structure AlienContactRaw where
  contact_id : RawField String
  timestamp : RawField Int
  location : RawField String
  contact_type : RawField ContactType
  signal_strength : RawField ℚ
  duration_minutes : RawField Int
  witness_count : RawField Int
  message_received : RawField (Option String)
  is_verified : RawField Bool

def AlienContact.checkContactId (r : AlienContactRaw) : Except Violation String :=
  checkRequired "contact_id" (fun s => 5 ≤ s.length && s.length ≤ 15) r.contact_id

def AlienContact.checkTimestamp (r : AlienContactRaw) : Except Violation Int :=
  checkRequired "timestamp" (fun _ => true) r.timestamp

def AlienContact.checkLocation (r : AlienContactRaw) : Except Violation String :=
  checkRequired "location" (fun s => 3 ≤ s.length && s.length ≤ 100) r.location

def AlienContact.checkContactType (r : AlienContactRaw) : Except Violation ContactType :=
  checkRequired "contact_type" (fun _ => true) r.contact_type

def AlienContact.checkSignalStrength (r : AlienContactRaw) : Except Violation ℚ :=
  checkRequired "signal_strength" (fun q => decide (0 ≤ q ∧ q ≤ 10)) r.signal_strength

def AlienContact.checkDurationMinutes (r : AlienContactRaw) : Except Violation Int :=
  checkRequired "duration_minutes" (fun n => decide (1 ≤ n ∧ n ≤ 1440)) r.duration_minutes

def AlienContact.checkWitnessCount (r : AlienContactRaw) : Except Violation Int :=
  checkRequired "witness_count" (fun n => decide (1 ≤ n ∧ n ≤ 100)) r.witness_count

def AlienContact.checkMessageReceived (r : AlienContactRaw) :
    Except Violation (Option String) :=
  checkDefault "message_received" none
    (fun o => match o with
      | none => true
      | some s => s.length ≤ 500) r.message_received

def AlienContact.checkIsVerified (r : AlienContactRaw) : Except Violation Bool :=
  checkDefault "is_verified" false (fun _ => true) r.is_verified

/-- Field phase for `AlienContact`, accumulating in declaration order. -/
def acFieldPhase (r : AlienContactRaw) : Except (List Violation) AlienContact :=
  vap (vap (vap (vap (vap (vap (vap (vap (vap (Except.ok AlienContact.mk)
    (AlienContact.checkContactId r)) (AlienContact.checkTimestamp r))
    (AlienContact.checkLocation r)) (AlienContact.checkContactType r))
    (AlienContact.checkSignalStrength r)) (AlienContact.checkDurationMinutes r))
    (AlienContact.checkWitnessCount r)) (AlienContact.checkMessageReceived r))
    (AlienContact.checkIsVerified r)

/-- The accumulated `AlienContact` field violations, in declaration order. -/
def acFieldErrs (r : AlienContactRaw) : List Violation :=
  errsOf1 (AlienContact.checkContactId r) ++ errsOf1 (AlienContact.checkTimestamp r) ++
  errsOf1 (AlienContact.checkLocation r) ++ errsOf1 (AlienContact.checkContactType r) ++
  errsOf1 (AlienContact.checkSignalStrength r) ++ errsOf1 (AlienContact.checkDurationMinutes r) ++
  errsOf1 (AlienContact.checkWitnessCount r) ++ errsOf1 (AlienContact.checkMessageReceived r) ++
  errsOf1 (AlienContact.checkIsVerified r)

theorem acFieldPhase_errs (r : AlienContactRaw) :
    errsOf (acFieldPhase r) = acFieldErrs r := by
  simp only [acFieldPhase, acFieldErrs, errsOf_vap]
  simp [errsOf]

/-- Python truthiness of an `Optional[str]`: `None` and `""` are falsy. -/
def optStrTruthy : Option String → Bool
  | none => false
  | some s => !(s == "")

/-- Python's `str.startswith`, on the underlying character lists. -/
def strStartsWith (s p : String) : Bool :=
  List.isPrefixOf p.data s.data

def contactIdRuleMsg : String := "Contact ID must start with \"AC\" (Alien Contact)"

def physicalRuleMsg : String := "Physical contact reports must be verified"

def telepathicRuleMsg : String := "Telepathic contact requires at least 3 witnesses"

def strongSignalRuleMsg : String := "Strong signals (> 7.0) should include received messages"

/-- The `model_validator(mode="after")` hook `validate_business_rules` of
`AlienContact`: the four `if`/`raise` statements of the source in order,
aborting at the first failing rule. -/
def AlienContact.validate_business_rules (c : AlienContact) :
    Except String AlienContact :=
  if !(strStartsWith c.contact_id "AC") then Except.error contactIdRuleMsg
  else if c.contact_type == ContactType.physical && !c.is_verified then
    Except.error physicalRuleMsg
  else if c.contact_type == ContactType.telepathic && decide (c.witness_count < 3) then
    Except.error telepathicRuleMsg
  else if decide ((7 : ℚ) < c.signal_strength) && !(optStrTruthy c.message_received) then
    Except.error strongSignalRuleMsg
  else Except.ok c

/-- Full validation for `AlienContact`: the accumulating field phase
gates the short-circuiting rule hook. -/
def validateAlienContact (r : AlienContactRaw) : Except (List Violation) AlienContact :=
  withRules (acFieldPhase r) AlienContact.validate_business_rules

/-- Whether the `k`-th business rule of `AlienContact` (in declaration
order) fails on `c`; indices past the four declared rules never fail. -/
def acRuleFails (c : AlienContact) : Nat → Bool
  | 0 => !(strStartsWith c.contact_id "AC")
  | 1 => c.contact_type == ContactType.physical && !c.is_verified
  | 2 => c.contact_type == ContactType.telepathic && decide (c.witness_count < 3)
  | 3 => decide ((7 : ℚ) < c.signal_strength) && !(optStrTruthy c.message_received)
  | _ => false

/-- The fixed message of the `k`-th `AlienContact` business rule. -/
def acRuleMsg : Nat → String
  | 0 => contactIdRuleMsg
  | 1 => physicalRuleMsg
  | 2 => telepathicRuleMsg
  | 3 => strongSignalRuleMsg
  | _ => ""

theorem validate_business_rules_eq (c : AlienContact) :
    AlienContact.validate_business_rules c =
      if acRuleFails c 0 then Except.error (acRuleMsg 0)
      else if acRuleFails c 1 then Except.error (acRuleMsg 1)
      else if acRuleFails c 2 then Except.error (acRuleMsg 2)
      else if acRuleFails c 3 then Except.error (acRuleMsg 3)
      else Except.ok c := rfl

/-! ## `ex2/space_crew.py`: `CrewMember` and `SpaceMission` -/

/-- The `Rank` enum of `ex2/space_crew.py`. -/
inductive Rank where
  | cadet
  | officer
  | lieutenant
  | captain
  | commander
deriving DecidableEq, Repr

/-- The validated `CrewMember` record of `ex2/space_crew.py`. -/
structure CrewMember where
  member_id : String
  name : String
  rank : Rank
  age : Int
  specialization : String
  years_experience : Int
  is_active : Bool
deriving DecidableEq, Repr

/-- Raw input mapping for a `CrewMember`. -/
structure CrewMemberRaw where
  member_id : RawField String
  name : RawField String
  rank : RawField Rank
  age : RawField Int
  specialization : RawField String
  years_experience : RawField Int
  is_active : RawField Bool

def CrewMember.checkMemberId (r : CrewMemberRaw) : Except Violation String :=
  checkRequired "member_id" (fun s => 3 ≤ s.length && s.length ≤ 10) r.member_id

def CrewMember.checkName (r : CrewMemberRaw) : Except Violation String :=
  checkRequired "name" (fun s => 2 ≤ s.length && s.length ≤ 50) r.name

def CrewMember.checkRank (r : CrewMemberRaw) : Except Violation Rank :=
  checkRequired "rank" (fun _ => true) r.rank

def CrewMember.checkAge (r : CrewMemberRaw) : Except Violation Int :=
  checkRequired "age" (fun n => decide (18 ≤ n ∧ n ≤ 80)) r.age

def CrewMember.checkSpecialization (r : CrewMemberRaw) : Except Violation String :=
  checkRequired "specialization" (fun s => 3 ≤ s.length && s.length ≤ 30)
    r.specialization

def CrewMember.checkYearsExperience (r : CrewMemberRaw) : Except Violation Int :=
  checkRequired "years_experience" (fun n => decide (0 ≤ n ∧ n ≤ 50))
    r.years_experience

def CrewMember.checkIsActive (r : CrewMemberRaw) : Except Violation Bool :=
  checkDefault "is_active" true (fun _ => true) r.is_active

/-- Field phase for `CrewMember`, accumulating in declaration order. -/
def memberFieldPhase (r : CrewMemberRaw) : Except (List Violation) CrewMember :=
  vap (vap (vap (vap (vap (vap (vap (Except.ok CrewMember.mk)
    (CrewMember.checkMemberId r)) (CrewMember.checkName r))
    (CrewMember.checkRank r)) (CrewMember.checkAge r))
    (CrewMember.checkSpecialization r)) (CrewMember.checkYearsExperience r))
    (CrewMember.checkIsActive r)

/-- `CrewMember` declares no record-level rules. -/
def validateCrewMember (r : CrewMemberRaw) : Except (List Violation) CrewMember :=
  memberFieldPhase r

/-- All declared field constraints of one coerced `CrewMember`, as a
single boolean (used as the crew-field constraint of `SpaceMission`). -/
def CrewMember.fieldValid (m : CrewMember) : Bool :=
  (3 ≤ m.member_id.length && m.member_id.length ≤ 10) &&
  (2 ≤ m.name.length && m.name.length ≤ 50) &&
  decide (18 ≤ m.age ∧ m.age ≤ 80) &&
  (3 ≤ m.specialization.length && m.specialization.length ≤ 30) &&
  decide (0 ≤ m.years_experience ∧ m.years_experience ≤ 50)

/-- The validated `SpaceMission` record of `ex2/space_crew.py`. -/
structure SpaceMission where
  mission_id : String
  mission_name : String
  destination : String
  launch_date : Int
  duration_days : Int
  crew : List CrewMember
  mission_status : String
  budget_millions : ℚ
deriving DecidableEq, Repr

/-- Raw input mapping for a `SpaceMission`.  The crew field holds
already-coerced members; a list whose members fail their own field
checks fails the crew field's constraint. -/
structure SpaceMissionRaw where
  mission_id : RawField String
  mission_name : RawField String
  destination : RawField String
  launch_date : RawField Int
  duration_days : RawField Int
  crew : RawField (List CrewMember)
  mission_status : RawField String
  budget_millions : RawField ℚ

def SpaceMission.checkMissionId (r : SpaceMissionRaw) : Except Violation String :=
  checkRequired "mission_id" (fun s => 5 ≤ s.length && s.length ≤ 15) r.mission_id

def SpaceMission.checkMissionName (r : SpaceMissionRaw) : Except Violation String :=
  checkRequired "mission_name" (fun s => 3 ≤ s.length && s.length ≤ 100)
    r.mission_name

def SpaceMission.checkDestination (r : SpaceMissionRaw) : Except Violation String :=
  checkRequired "destination" (fun s => 3 ≤ s.length && s.length ≤ 50)
    r.destination

def SpaceMission.checkLaunchDate (r : SpaceMissionRaw) : Except Violation Int :=
  checkRequired "launch_date" (fun _ => true) r.launch_date

def SpaceMission.checkDurationDays (r : SpaceMissionRaw) : Except Violation Int :=
  checkRequired "duration_days" (fun n => decide (1 ≤ n ∧ n ≤ 3650))
    r.duration_days

def SpaceMission.checkCrew (r : SpaceMissionRaw) :
    Except Violation (List CrewMember) :=
  checkRequired "crew"
    (fun l => (1 ≤ l.length && l.length ≤ 12) && l.all CrewMember.fieldValid)
    r.crew

def SpaceMission.checkMissionStatus (r : SpaceMissionRaw) : Except Violation String :=
  checkDefault "mission_status" "planned" (fun _ => true) r.mission_status

def SpaceMission.checkBudgetMillions (r : SpaceMissionRaw) : Except Violation ℚ :=
  checkRequired "budget_millions" (fun q => decide (1 ≤ q ∧ q ≤ 10000))
    r.budget_millions

/-- Field phase for `SpaceMission`, accumulating in declaration order. -/
def missionFieldPhase (r : SpaceMissionRaw) : Except (List Violation) SpaceMission :=
  vap (vap (vap (vap (vap (vap (vap (vap (Except.ok SpaceMission.mk)
    (SpaceMission.checkMissionId r)) (SpaceMission.checkMissionName r))
    (SpaceMission.checkDestination r)) (SpaceMission.checkLaunchDate r))
    (SpaceMission.checkDurationDays r)) (SpaceMission.checkCrew r))
    (SpaceMission.checkMissionStatus r)) (SpaceMission.checkBudgetMillions r)

/-- The accumulated `SpaceMission` field violations, in declaration order. -/
def missionFieldErrs (r : SpaceMissionRaw) : List Violation :=
  errsOf1 (SpaceMission.checkMissionId r) ++ errsOf1 (SpaceMission.checkMissionName r) ++
  errsOf1 (SpaceMission.checkDestination r) ++ errsOf1 (SpaceMission.checkLaunchDate r) ++
  errsOf1 (SpaceMission.checkDurationDays r) ++ errsOf1 (SpaceMission.checkCrew r) ++
  errsOf1 (SpaceMission.checkMissionStatus r) ++ errsOf1 (SpaceMission.checkBudgetMillions r)

theorem missionFieldPhase_errs (r : SpaceMissionRaw) :
    errsOf (missionFieldPhase r) = missionFieldErrs r := by
  simp only [missionFieldPhase, missionFieldErrs, errsOf_vap]
  simp [errsOf]

/-- The `has_leader` loop of `validate_mission_rules`: starts `False` and
is set when a member's rank is captain or commander. -/
def hasLeader (crew : List CrewMember) : Bool :=
  crew.foldl (fun acc mem =>
    if mem.rank == Rank.captain || mem.rank == Rank.commander then true else acc)
    false

/-- The `exprienced` counting loop of `validate_mission_rules` (the
misspelling is the source's). -/
def exprienced (crew : List CrewMember) : Nat :=
  crew.foldl (fun n mem => if 5 ≤ mem.years_experience then n + 1 else n) 0

/-- The `all_active` loop of `validate_mission_rules`: starts `True` and
is cleared when a member is not active. -/
def allActive (crew : List CrewMember) : Bool :=
  crew.foldl (fun acc mem => if !mem.is_active then false else acc) true

def missionIdRuleMsg : String := "Mission ID must start with \"M\""

def leaderRuleMsg : String := "Mission must have at least one Commander or Captain"

def experiencedRuleMsg : String := "Not enough experienced crew"

def allActiveRuleMsg : String := "All crew members must be active"

/-- The `model_validator(mode="after")` hook `validate_mission_rules` of
`SpaceMission`: the source's four rules in order, aborting at the first
failure.  The experienced-crew comparison is the source's
`exprienced < len(self.crew) / 2` with Python true division, modelled
exactly in `ℚ`. -/
def SpaceMission.validate_mission_rules (m : SpaceMission) :
    Except String SpaceMission :=
  if !(strStartsWith m.mission_id "M") then Except.error missionIdRuleMsg
  else if !(hasLeader m.crew) then Except.error leaderRuleMsg
  else if decide (365 < m.duration_days) &&
      decide ((exprienced m.crew : ℚ) < (m.crew.length : ℚ) / 2) then
    Except.error experiencedRuleMsg
  else if !(allActive m.crew) then Except.error allActiveRuleMsg
  else Except.ok m

/-- Full validation for `SpaceMission`. -/
def validateSpaceMission (r : SpaceMissionRaw) : Except (List Violation) SpaceMission :=
  withRules (missionFieldPhase r) SpaceMission.validate_mission_rules

/-- Whether the `k`-th business rule of `SpaceMission` (in declaration
order) fails on `m`. -/
def missionRuleFails (m : SpaceMission) : Nat → Bool
  | 0 => !(strStartsWith m.mission_id "M")
  | 1 => !(hasLeader m.crew)
  | 2 => decide (365 < m.duration_days) &&
      decide ((exprienced m.crew : ℚ) < (m.crew.length : ℚ) / 2)
  | 3 => !(allActive m.crew)
  | _ => false

/-- The fixed message of the `k`-th `SpaceMission` business rule. -/
def missionRuleMsg : Nat → String
  | 0 => missionIdRuleMsg
  | 1 => leaderRuleMsg
  | 2 => experiencedRuleMsg
  | 3 => allActiveRuleMsg
  | _ => ""

theorem validate_mission_rules_eq (m : SpaceMission) :
    SpaceMission.validate_mission_rules m =
      if missionRuleFails m 0 then Except.error (missionRuleMsg 0)
      else if missionRuleFails m 1 then Except.error (missionRuleMsg 1)
      else if missionRuleFails m 2 then Except.error (missionRuleMsg 2)
      else if missionRuleFails m 3 then Except.error (missionRuleMsg 3)
      else Except.ok m := rfl

/-! ## Round-tripping a validated record back to raw values -/

/-- A validated `SpaceStation` rendered back as a raw input mapping. -/
def SpaceStation.toRaw (s : SpaceStation) : SpaceStationRaw :=
  ⟨RawField.val s.station_id, RawField.val s.name, RawField.val s.crew_size,
   RawField.val s.power_level, RawField.val s.oxygen_level,
   RawField.val s.last_maintenance, RawField.val s.is_operational,
   RawField.val s.notes⟩

/-- A validated `AlienContact` rendered back as a raw input mapping. -/
def AlienContact.toRaw (c : AlienContact) : AlienContactRaw :=
  ⟨RawField.val c.contact_id, RawField.val c.timestamp, RawField.val c.location,
   RawField.val c.contact_type, RawField.val c.signal_strength,
   RawField.val c.duration_minutes, RawField.val c.witness_count,
   RawField.val c.message_received, RawField.val c.is_verified⟩

/-- A validated `CrewMember` rendered back as a raw input mapping. -/
def CrewMember.toRaw (m : CrewMember) : CrewMemberRaw :=
  ⟨RawField.val m.member_id, RawField.val m.name, RawField.val m.rank,
   RawField.val m.age, RawField.val m.specialization,
   RawField.val m.years_experience, RawField.val m.is_active⟩

/-- A validated `SpaceMission` rendered back as a raw input mapping. -/
def SpaceMission.toRaw (m : SpaceMission) : SpaceMissionRaw :=
  ⟨RawField.val m.mission_id, RawField.val m.mission_name,
   RawField.val m.destination, RawField.val m.launch_date,
   RawField.val m.duration_days, RawField.val m.crew,
   RawField.val m.mission_status, RawField.val m.budget_millions⟩

/-! ## Field-phase success determines every check -/

theorem stationFieldPhase_ok_checks {r : SpaceStationRaw} {c : SpaceStation}
    (h : stationFieldPhase r = Except.ok c) :
    SpaceStation.checkStationId r = Except.ok c.station_id ∧
    SpaceStation.checkName r = Except.ok c.name ∧
    SpaceStation.checkCrewSize r = Except.ok c.crew_size ∧
    SpaceStation.checkPowerLevel r = Except.ok c.power_level ∧
    SpaceStation.checkOxygenLevel r = Except.ok c.oxygen_level ∧
    SpaceStation.checkLastMaintenance r = Except.ok c.last_maintenance ∧
    SpaceStation.checkIsOperational r = Except.ok c.is_operational ∧
    SpaceStation.checkNotes r = Except.ok c.notes := by
  rw [stationFieldPhase] at h
  obtain ⟨f7, v8, h7, hc8, rfl⟩ := vap_eq_ok h
  obtain ⟨f6, v7, h6, hc7, rfl⟩ := vap_eq_ok h7
  obtain ⟨f5, v6, h5, hc6, rfl⟩ := vap_eq_ok h6
  obtain ⟨f4, v5, h4, hc5, rfl⟩ := vap_eq_ok h5
  obtain ⟨f3, v4, h3, hc4, rfl⟩ := vap_eq_ok h4
  obtain ⟨f2, v3, h2, hc3, rfl⟩ := vap_eq_ok h3
  obtain ⟨f1, v2, h1, hc2, rfl⟩ := vap_eq_ok h2
  obtain ⟨f0, v1, h0, hc1, rfl⟩ := vap_eq_ok h1
  injection h0 with h0
  subst h0
  exact ⟨hc1, hc2, hc3, hc4, hc5, hc6, hc7, hc8⟩

theorem acFieldPhase_ok_checks {r : AlienContactRaw} {c : AlienContact}
    (h : acFieldPhase r = Except.ok c) :
    AlienContact.checkContactId r = Except.ok c.contact_id ∧
    AlienContact.checkTimestamp r = Except.ok c.timestamp ∧
    AlienContact.checkLocation r = Except.ok c.location ∧
    AlienContact.checkContactType r = Except.ok c.contact_type ∧
    AlienContact.checkSignalStrength r = Except.ok c.signal_strength ∧
    AlienContact.checkDurationMinutes r = Except.ok c.duration_minutes ∧
    AlienContact.checkWitnessCount r = Except.ok c.witness_count ∧
    AlienContact.checkMessageReceived r = Except.ok c.message_received ∧
    AlienContact.checkIsVerified r = Except.ok c.is_verified := by
  rw [acFieldPhase] at h
  obtain ⟨f8, v9, h8, hc9, rfl⟩ := vap_eq_ok h
  obtain ⟨f7, v8, h7, hc8, rfl⟩ := vap_eq_ok h8
  obtain ⟨f6, v7, h6, hc7, rfl⟩ := vap_eq_ok h7
  obtain ⟨f5, v6, h5, hc6, rfl⟩ := vap_eq_ok h6
  obtain ⟨f4, v5, h4, hc5, rfl⟩ := vap_eq_ok h5
  obtain ⟨f3, v4, h3, hc4, rfl⟩ := vap_eq_ok h4
  obtain ⟨f2, v3, h2, hc3, rfl⟩ := vap_eq_ok h3
  obtain ⟨f1, v2, h1, hc2, rfl⟩ := vap_eq_ok h2
  obtain ⟨f0, v1, h0, hc1, rfl⟩ := vap_eq_ok h1
  injection h0 with h0
  subst h0
  exact ⟨hc1, hc2, hc3, hc4, hc5, hc6, hc7, hc8, hc9⟩

theorem memberFieldPhase_ok_checks {r : CrewMemberRaw} {c : CrewMember}
    (h : memberFieldPhase r = Except.ok c) :
    CrewMember.checkMemberId r = Except.ok c.member_id ∧
    CrewMember.checkName r = Except.ok c.name ∧
    CrewMember.checkRank r = Except.ok c.rank ∧
    CrewMember.checkAge r = Except.ok c.age ∧
    CrewMember.checkSpecialization r = Except.ok c.specialization ∧
    CrewMember.checkYearsExperience r = Except.ok c.years_experience ∧
    CrewMember.checkIsActive r = Except.ok c.is_active := by
  rw [memberFieldPhase] at h
  obtain ⟨f6, v7, h6, hc7, rfl⟩ := vap_eq_ok h
  obtain ⟨f5, v6, h5, hc6, rfl⟩ := vap_eq_ok h6
  obtain ⟨f4, v5, h4, hc5, rfl⟩ := vap_eq_ok h5
  obtain ⟨f3, v4, h3, hc4, rfl⟩ := vap_eq_ok h4
  obtain ⟨f2, v3, h2, hc3, rfl⟩ := vap_eq_ok h3
  obtain ⟨f1, v2, h1, hc2, rfl⟩ := vap_eq_ok h2
  obtain ⟨f0, v1, h0, hc1, rfl⟩ := vap_eq_ok h1
  injection h0 with h0
  subst h0
  exact ⟨hc1, hc2, hc3, hc4, hc5, hc6, hc7⟩

theorem missionFieldPhase_ok_checks {r : SpaceMissionRaw} {c : SpaceMission}
    (h : missionFieldPhase r = Except.ok c) :
    SpaceMission.checkMissionId r = Except.ok c.mission_id ∧
    SpaceMission.checkMissionName r = Except.ok c.mission_name ∧
    SpaceMission.checkDestination r = Except.ok c.destination ∧
    SpaceMission.checkLaunchDate r = Except.ok c.launch_date ∧
    SpaceMission.checkDurationDays r = Except.ok c.duration_days ∧
    SpaceMission.checkCrew r = Except.ok c.crew ∧
    SpaceMission.checkMissionStatus r = Except.ok c.mission_status ∧
    SpaceMission.checkBudgetMillions r = Except.ok c.budget_millions := by
  rw [missionFieldPhase] at h
  obtain ⟨f7, v8, h7, hc8, rfl⟩ := vap_eq_ok h
  obtain ⟨f6, v7, h6, hc7, rfl⟩ := vap_eq_ok h7
  obtain ⟨f5, v6, h5, hc6, rfl⟩ := vap_eq_ok h6
  obtain ⟨f4, v5, h4, hc5, rfl⟩ := vap_eq_ok h5
  obtain ⟨f3, v4, h3, hc4, rfl⟩ := vap_eq_ok h4
  obtain ⟨f2, v3, h2, hc3, rfl⟩ := vap_eq_ok h3
  obtain ⟨f1, v2, h1, hc2, rfl⟩ := vap_eq_ok h2
  obtain ⟨f0, v1, h0, hc1, rfl⟩ := vap_eq_ok h1
  injection h0 with h0
  subst h0
  exact ⟨hc1, hc2, hc3, hc4, hc5, hc6, hc7, hc8⟩

/-! ## The rule hooks return the record unchanged on success -/

theorem ac_rules_ok_self {c d : AlienContact}
    (h : AlienContact.validate_business_rules c = Except.ok d) : d = c := by
  rw [AlienContact.validate_business_rules] at h
  split_ifs at h
  all_goals injection h with h
  all_goals exact h.symm

theorem mission_rules_ok_self {m d : SpaceMission}
    (h : SpaceMission.validate_mission_rules m = Except.ok d) : d = m := by
  rw [SpaceMission.validate_mission_rules] at h
  split_ifs at h
  all_goals injection h with h
  all_goals exact h.symm

/-! ## Field-phase violations are never rule violations -/

theorem checkDefault_names {α : Type} (n : String) (d : α) (ok : α → Bool)
    (x : RawField α) : (errsOf1 (checkDefault n d ok x)).map Violation.fieldName
      = if isErr1 (checkDefault n d ok x) then [n] else [] := by
  match x with
  | none => rfl
  | some (Except.error _) => rfl
  | some (Except.ok w) =>
      by_cases hw : ok w <;> simp [checkDefault, hw, errsOf1, isErr1,
        Violation.fieldName]

theorem stationFieldErrs_notRule {r : SpaceStationRaw} {v : Violation}
    (h : v ∈ stationFieldErrs r) : v.isRule = false := by
  simp only [stationFieldErrs, List.mem_append] at h
  rcases h with (((((((h | h) | h) | h) | h) | h) | h) | h)
  exacts [checkRequired_notRule h, checkRequired_notRule h,
    checkRequired_notRule h, checkRequired_notRule h, checkRequired_notRule h,
    checkRequired_notRule h, checkDefault_notRule h, checkDefault_notRule h]

theorem acFieldErrs_notRule {r : AlienContactRaw} {v : Violation}
    (h : v ∈ acFieldErrs r) : v.isRule = false := by
  simp only [acFieldErrs, List.mem_append] at h
  rcases h with ((((((((h | h) | h) | h) | h) | h) | h) | h) | h)
  exacts [checkRequired_notRule h, checkRequired_notRule h,
    checkRequired_notRule h, checkRequired_notRule h, checkRequired_notRule h,
    checkRequired_notRule h, checkRequired_notRule h, checkDefault_notRule h,
    checkDefault_notRule h]

theorem missionFieldErrs_notRule {r : SpaceMissionRaw} {v : Violation}
    (h : v ∈ missionFieldErrs r) : v.isRule = false := by
  simp only [missionFieldErrs, List.mem_append] at h
  rcases h with (((((((h | h) | h) | h) | h) | h) | h) | h)
  exacts [checkRequired_notRule h, checkRequired_notRule h,
    checkRequired_notRule h, checkRequired_notRule h, checkRequired_notRule h,
    checkRequired_notRule h, checkDefault_notRule h, checkRequired_notRule h]

/-! ## A failing field phase short-circuits the rule hook -/

theorem acFieldPhase_error {r : AlienContactRaw} (h : acFieldErrs r ≠ []) :
    acFieldPhase r = Except.error (acFieldErrs r) := by
  have := error_of_errsOf_ne_nil (e := acFieldPhase r)
  rw [acFieldPhase_errs] at this
  exact this h

theorem missionFieldPhase_error {r : SpaceMissionRaw}
    (h : missionFieldErrs r ≠ []) :
    missionFieldPhase r = Except.error (missionFieldErrs r) := by
  have := error_of_errsOf_ne_nil (e := missionFieldPhase r)
  rw [missionFieldPhase_errs] at this
  exact this h

theorem stationFieldPhase_error {r : SpaceStationRaw}
    (h : stationFieldErrs r ≠ []) :
    stationFieldPhase r = Except.error (stationFieldErrs r) := by
  have := error_of_errsOf_ne_nil (e := stationFieldPhase r)
  rw [stationFieldPhase_errs] at this
  exact this h

/-! ## Offending field names in declaration order (`SpaceStation`) -/

/-- The declared `SpaceStation` fields whose check fails, in declaration
order. -/
def stationOffendingNames (r : SpaceStationRaw) : List String :=
  (if isErr1 (SpaceStation.checkStationId r) then ["station_id"] else []) ++
  (if isErr1 (SpaceStation.checkName r) then ["name"] else []) ++
  (if isErr1 (SpaceStation.checkCrewSize r) then ["crew_size"] else []) ++
  (if isErr1 (SpaceStation.checkPowerLevel r) then ["power_level"] else []) ++
  (if isErr1 (SpaceStation.checkOxygenLevel r) then ["oxygen_level"] else []) ++
  (if isErr1 (SpaceStation.checkLastMaintenance r) then ["last_maintenance"] else []) ++
  (if isErr1 (SpaceStation.checkIsOperational r) then ["is_operational"] else []) ++
  (if isErr1 (SpaceStation.checkNotes r) then ["notes"] else [])

theorem stationFieldErrs_names (r : SpaceStationRaw) :
    (stationFieldErrs r).map Violation.fieldName = stationOffendingNames r := by
  simp only [stationFieldErrs, stationOffendingNames, List.map_append,
    SpaceStation.checkStationId, SpaceStation.checkName,
    SpaceStation.checkCrewSize, SpaceStation.checkPowerLevel,
    SpaceStation.checkOxygenLevel, SpaceStation.checkLastMaintenance,
    SpaceStation.checkIsOperational, SpaceStation.checkNotes,
    checkRequired_names, checkDefault_names]

/-! ## Building a record from successful checks -/

theorem stationFieldPhase_build {r : SpaceStationRaw} {v1 v2 : String}
    {v3 : Int} {v4 v5 : ℚ} {v6 : Int} {v7 : Bool} {v8 : Option String}
    (h1 : SpaceStation.checkStationId r = Except.ok v1)
    (h2 : SpaceStation.checkName r = Except.ok v2)
    (h3 : SpaceStation.checkCrewSize r = Except.ok v3)
    (h4 : SpaceStation.checkPowerLevel r = Except.ok v4)
    (h5 : SpaceStation.checkOxygenLevel r = Except.ok v5)
    (h6 : SpaceStation.checkLastMaintenance r = Except.ok v6)
    (h7 : SpaceStation.checkIsOperational r = Except.ok v7)
    (h8 : SpaceStation.checkNotes r = Except.ok v8) :
    stationFieldPhase r = Except.ok ⟨v1, v2, v3, v4, v5, v6, v7, v8⟩ := by
  simp only [stationFieldPhase, h1, h2, h3, h4, h5, h6, h7, h8, vap]

theorem acFieldPhase_build {r : AlienContactRaw} {v1 : String} {v2 : Int}
    {v3 : String} {v4 : ContactType} {v5 : ℚ} {v6 v7 : Int}
    {v8 : Option String} {v9 : Bool}
    (h1 : AlienContact.checkContactId r = Except.ok v1)
    (h2 : AlienContact.checkTimestamp r = Except.ok v2)
    (h3 : AlienContact.checkLocation r = Except.ok v3)
    (h4 : AlienContact.checkContactType r = Except.ok v4)
    (h5 : AlienContact.checkSignalStrength r = Except.ok v5)
    (h6 : AlienContact.checkDurationMinutes r = Except.ok v6)
    (h7 : AlienContact.checkWitnessCount r = Except.ok v7)
    (h8 : AlienContact.checkMessageReceived r = Except.ok v8)
    (h9 : AlienContact.checkIsVerified r = Except.ok v9) :
    acFieldPhase r = Except.ok ⟨v1, v2, v3, v4, v5, v6, v7, v8, v9⟩ := by
  simp only [acFieldPhase, h1, h2, h3, h4, h5, h6, h7, h8, h9, vap]

theorem memberFieldPhase_build {r : CrewMemberRaw} {v1 v2 : String} {v3 : Rank}
    {v4 : Int} {v5 : String} {v6 : Int} {v7 : Bool}
    (h1 : CrewMember.checkMemberId r = Except.ok v1)
    (h2 : CrewMember.checkName r = Except.ok v2)
    (h3 : CrewMember.checkRank r = Except.ok v3)
    (h4 : CrewMember.checkAge r = Except.ok v4)
    (h5 : CrewMember.checkSpecialization r = Except.ok v5)
    (h6 : CrewMember.checkYearsExperience r = Except.ok v6)
    (h7 : CrewMember.checkIsActive r = Except.ok v7) :
    memberFieldPhase r = Except.ok ⟨v1, v2, v3, v4, v5, v6, v7⟩ := by
  simp only [memberFieldPhase, h1, h2, h3, h4, h5, h6, h7, vap]

theorem missionFieldPhase_build {r : SpaceMissionRaw} {v1 v2 v3 : String}
    {v4 v5 : Int} {v6 : List CrewMember} {v7 : String} {v8 : ℚ}
    (h1 : SpaceMission.checkMissionId r = Except.ok v1)
    (h2 : SpaceMission.checkMissionName r = Except.ok v2)
    (h3 : SpaceMission.checkDestination r = Except.ok v3)
    (h4 : SpaceMission.checkLaunchDate r = Except.ok v4)
    (h5 : SpaceMission.checkDurationDays r = Except.ok v5)
    (h6 : SpaceMission.checkCrew r = Except.ok v6)
    (h7 : SpaceMission.checkMissionStatus r = Except.ok v7)
    (h8 : SpaceMission.checkBudgetMillions r = Except.ok v8) :
    missionFieldPhase r = Except.ok ⟨v1, v2, v3, v4, v5, v6, v7, v8⟩ := by
  simp only [missionFieldPhase, h1, h2, h3, h4, h5, h6, h7, h8, vap]

/-! ## Re-validation of a validated record succeeds (per model) -/

theorem stationFieldPhase_toRaw {r : SpaceStationRaw} {c : SpaceStation}
    (h : stationFieldPhase r = Except.ok c) :
    stationFieldPhase (SpaceStation.toRaw c) = Except.ok c := by
  obtain ⟨h1, h2, h3, h4, h5, h6, h7, h8⟩ := stationFieldPhase_ok_checks h
  exact stationFieldPhase_build (checkRequired_idem h1) (checkRequired_idem h2)
    (checkRequired_idem h3) (checkRequired_idem h4) (checkRequired_idem h5)
    (checkRequired_idem h6) (checkDefault_idem rfl h7) (checkDefault_idem rfl h8)

theorem acFieldPhase_toRaw {r : AlienContactRaw} {c : AlienContact}
    (h : acFieldPhase r = Except.ok c) :
    acFieldPhase (AlienContact.toRaw c) = Except.ok c := by
  obtain ⟨h1, h2, h3, h4, h5, h6, h7, h8, h9⟩ := acFieldPhase_ok_checks h
  exact acFieldPhase_build (checkRequired_idem h1) (checkRequired_idem h2)
    (checkRequired_idem h3) (checkRequired_idem h4) (checkRequired_idem h5)
    (checkRequired_idem h6) (checkRequired_idem h7) (checkDefault_idem rfl h8)
    (checkDefault_idem rfl h9)

theorem memberFieldPhase_toRaw {r : CrewMemberRaw} {c : CrewMember}
    (h : memberFieldPhase r = Except.ok c) :
    memberFieldPhase (CrewMember.toRaw c) = Except.ok c := by
  obtain ⟨h1, h2, h3, h4, h5, h6, h7⟩ := memberFieldPhase_ok_checks h
  exact memberFieldPhase_build (checkRequired_idem h1) (checkRequired_idem h2)
    (checkRequired_idem h3) (checkRequired_idem h4) (checkRequired_idem h5)
    (checkRequired_idem h6) (checkDefault_idem rfl h7)

theorem missionFieldPhase_toRaw {r : SpaceMissionRaw} {c : SpaceMission}
    (h : missionFieldPhase r = Except.ok c) :
    missionFieldPhase (SpaceMission.toRaw c) = Except.ok c := by
  obtain ⟨h1, h2, h3, h4, h5, h6, h7, h8⟩ := missionFieldPhase_ok_checks h
  exact missionFieldPhase_build (checkRequired_idem h1) (checkRequired_idem h2)
    (checkRequired_idem h3) (checkRequired_idem h4) (checkRequired_idem h5)
    (checkRequired_idem h6) (checkDefault_idem rfl h7) (checkRequired_idem h8)

/-! ## Concrete records (from the scripts' `main` functions and variants) -/

/-- The valid station constructed in `ex0`'s `main`. -/
def stationOk : SpaceStation :=
  ⟨"ISS001", "International Space Station", 6, 85.5, 92.3, 0, true,
   some "All systems nominal."⟩

/-- The valid contact report constructed in `ex1`'s `main`. -/
def contactOk : AlienContact :=
  ⟨"AC_2024_001", 0, "Area 51, Nevada", ContactType.radio, 8.5, 45, 5,
   some "Greetings from Zeta Reticuli", false⟩

/-- The commander from `ex2`'s `main`. -/
def memberCommander : CrewMember :=
  ⟨"CM001", "Sarah Connor", Rank.commander, 38, "Mission Command", 12, true⟩

/-- The lieutenant from `ex2`'s `main`. -/
def memberLieutenant : CrewMember :=
  ⟨"LT002", "John Smith", Rank.lieutenant, 33, "Navigation", 6, true⟩

/-- The officer from `ex2`'s `main`. -/
def memberOfficer : CrewMember :=
  ⟨"OF003", "Alice Johnson", Rank.officer, 29, "Engineering", 5, true⟩

/-- The cadet from `ex2`'s `main`. -/
def memberCadet : CrewMember :=
  ⟨"CD001", "Test Cadet", Rank.cadet, 22, "Support", 1, true⟩

/-- The valid Mars mission constructed in `ex2`'s `main`. -/
def missionOk : SpaceMission :=
  ⟨"M2024_MARS", "Mars Colony Establishment", "Mars", 0, 900,
   [memberCommander, memberLieutenant, memberOfficer], "planned", 2500⟩

theorem stationOk_phase :
    stationFieldPhase (SpaceStation.toRaw stationOk) = Except.ok stationOk :=
  stationFieldPhase_build rfl rfl rfl
    (by norm_num [SpaceStation.checkPowerLevel, checkRequired,
      SpaceStation.toRaw, RawField.val, stationOk])
    (by norm_num [SpaceStation.checkOxygenLevel, checkRequired,
      SpaceStation.toRaw, RawField.val, stationOk])
    rfl rfl rfl

theorem contactOk_phase :
    acFieldPhase (AlienContact.toRaw contactOk) = Except.ok contactOk :=
  acFieldPhase_build rfl rfl rfl rfl
    (by norm_num [AlienContact.checkSignalStrength, checkRequired,
      AlienContact.toRaw, RawField.val, contactOk])
    rfl rfl rfl rfl

theorem contactOk_rules :
    AlienContact.validate_business_rules contactOk = Except.ok contactOk := by
  norm_num [AlienContact.validate_business_rules, contactOk, strStartsWith,
    optStrTruthy]
  rfl

theorem memberCommander_phase :
    memberFieldPhase (CrewMember.toRaw memberCommander) =
      Except.ok memberCommander :=
  memberFieldPhase_build rfl rfl rfl rfl rfl rfl rfl

theorem missionOk_phase :
    missionFieldPhase (SpaceMission.toRaw missionOk) = Except.ok missionOk :=
  missionFieldPhase_build rfl rfl rfl rfl rfl rfl rfl
    (by norm_num [SpaceMission.checkBudgetMillions, checkRequired,
      SpaceMission.toRaw, RawField.val, missionOk])

theorem missionOk_rules :
    SpaceMission.validate_mission_rules missionOk = Except.ok missionOk := by
  norm_num [SpaceMission.validate_mission_rules, missionOk, strStartsWith,
    hasLeader, allActive, exprienced, memberCommander, memberLieutenant,
    memberOfficer]

/-- Field-valid contact failing both the contact-id rule and the
telepathic-witnesses rule. -/
def contactTwoBad : AlienContact :=
  ⟨"XX_2024_001", 0, "Desert Zone", ContactType.telepathic, 5, 30, 1,
   none, false⟩

theorem contactTwoBad_phase :
    acFieldPhase (AlienContact.toRaw contactTwoBad) = Except.ok contactTwoBad :=
  acFieldPhase_build rfl rfl rfl rfl
    (by norm_num [AlienContact.checkSignalStrength, checkRequired,
      AlienContact.toRaw, RawField.val, contactTwoBad])
    rfl rfl rfl rfl

/-- Field-valid mission failing both the mission-id rule and the leader
rule. -/
def missionTwoBad : SpaceMission :=
  ⟨"X2026_TEST", "Test Mission", "Moon", 0, 30, [memberCadet], "planned", 100⟩

theorem missionTwoBad_phase :
    missionFieldPhase (SpaceMission.toRaw missionTwoBad) =
      Except.ok missionTwoBad :=
  missionFieldPhase_build rfl rfl rfl rfl rfl rfl rfl
    (by norm_num [SpaceMission.checkBudgetMillions, checkRequired,
      SpaceMission.toRaw, RawField.val, missionTwoBad])

/-- A raw contact input whose required `contact_id` is absent. -/
def acMissingRaw : AlienContactRaw :=
  { AlienContact.toRaw contactOk with contact_id := none }

theorem acMissingRaw_errs :
    acFieldErrs acMissingRaw = [Violation.missing "contact_id"] := by
  norm_num [acFieldErrs, errsOf1, AlienContact.checkContactId,
    AlienContact.checkTimestamp, AlienContact.checkLocation,
    AlienContact.checkContactType, AlienContact.checkSignalStrength,
    AlienContact.checkDurationMinutes, AlienContact.checkWitnessCount,
    AlienContact.checkMessageReceived, AlienContact.checkIsVerified,
    checkRequired, checkDefault, acMissingRaw, AlienContact.toRaw,
    RawField.val, contactOk]
  decide

/-- A raw mission input whose required `mission_id` is absent. -/
def missionMissingRaw : SpaceMissionRaw :=
  { SpaceMission.toRaw missionOk with mission_id := none }

theorem missionMissingRaw_errs :
    missionFieldErrs missionMissingRaw = [Violation.missing "mission_id"] := by
  norm_num [missionFieldErrs, errsOf1, SpaceMission.checkMissionId,
    SpaceMission.checkMissionName, SpaceMission.checkDestination,
    SpaceMission.checkLaunchDate, SpaceMission.checkDurationDays,
    SpaceMission.checkCrew, SpaceMission.checkMissionStatus,
    SpaceMission.checkBudgetMillions, checkRequired, checkDefault,
    missionMissingRaw, SpaceMission.toRaw, RawField.val, missionOk]
  decide

/-- A raw station input with two constraint-violating fields
(`crew_size=30`, `power_level=150`). -/
def stationBadRaw : SpaceStationRaw :=
  { SpaceStation.toRaw stationOk with
      crew_size := RawField.val 30, power_level := RawField.val 150 }

theorem stationBadRaw_names :
    stationOffendingNames stationBadRaw = ["crew_size", "power_level"] := by
  norm_num [stationOffendingNames, isErr1, SpaceStation.checkStationId,
    SpaceStation.checkName, SpaceStation.checkCrewSize,
    SpaceStation.checkPowerLevel, SpaceStation.checkOxygenLevel,
    SpaceStation.checkLastMaintenance, SpaceStation.checkIsOperational,
    SpaceStation.checkNotes, checkRequired, checkDefault, stationBadRaw,
    SpaceStation.toRaw, RawField.val, stationOk]
  decide

/-- Field-valid 900-day mission with a leader but a bad id prefix, and
only inexperienced crew (0 of 3 members with 5+ years). -/
def cexMission : SpaceMission :=
  ⟨"X2024_MARS", "Mars Colony Establishment", "Mars", 0, 900,
   [⟨"CM001", "Dana Scully", Rank.commander, 38, "Mission Command", 1, true⟩,
    ⟨"LT002", "John Smith", Rank.lieutenant, 33, "Navigation", 1, true⟩,
    ⟨"OF003", "Alice Johnson", Rank.officer, 29, "Engineering", 1, true⟩],
   "planned", 2500⟩

theorem cexMission_phase :
    missionFieldPhase (SpaceMission.toRaw cexMission) = Except.ok cexMission :=
  missionFieldPhase_build rfl rfl rfl rfl rfl rfl rfl
    (by norm_num [SpaceMission.checkBudgetMillions, checkRequired,
      SpaceMission.toRaw, RawField.val, cexMission])

/-- The `main` mission with the crew's experience lowered so that only 1
of 3 members has 5+ years. -/
def missionInexp : SpaceMission :=
  ⟨"M2024_MARS", "Mars Colony Establishment", "Mars", 0, 900,
   [memberCommander,
    ⟨"LT002", "John Smith", Rank.lieutenant, 33, "Navigation", 1, true⟩,
    ⟨"OF003", "Alice Johnson", Rank.officer, 29, "Engineering", 1, true⟩],
   "planned", 2500⟩

theorem missionInexp_phase :
    missionFieldPhase (SpaceMission.toRaw missionInexp) =
      Except.ok missionInexp :=
  missionFieldPhase_build rfl rfl rfl rfl rfl rfl rfl
    (by norm_num [SpaceMission.checkBudgetMillions, checkRequired,
      SpaceMission.toRaw, RawField.val, missionInexp])

/-- Field-valid strong-signal contact with a good prefix whose message is
present but empty. -/
def contactEmptyMsg : AlienContact :=
  ⟨"AC_2024_009", 0, "Area 51, Nevada", ContactType.radio, 8.5, 45, 5,
   some "", false⟩

theorem contactEmptyMsg_phase :
    acFieldPhase (AlienContact.toRaw contactEmptyMsg) =
      Except.ok contactEmptyMsg :=
  acFieldPhase_build rfl rfl rfl rfl
    (by norm_num [AlienContact.checkSignalStrength, checkRequired,
      AlienContact.toRaw, RawField.val, contactEmptyMsg])
    rfl rfl rfl rfl

/-- Field-valid telepathic contact with 1 witness and a bad id prefix. -/
def contactBadPrefixTele : AlienContact :=
  ⟨"XY123", 0, "Desert Zone", ContactType.telepathic, 5, 30, 1, none, false⟩

theorem contactBadPrefixTele_phase :
    acFieldPhase (AlienContact.toRaw contactBadPrefixTele) =
      Except.ok contactBadPrefixTele :=
  acFieldPhase_build rfl rfl rfl rfl
    (by norm_num [AlienContact.checkSignalStrength, checkRequired,
      AlienContact.toRaw, RawField.val, contactBadPrefixTele])
    rfl rfl rfl rfl

/-- Field-valid telepathic contact with 1 witness and a good id prefix. -/
def contactTele : AlienContact :=
  ⟨"AC123", 0, "Desert Zone", ContactType.telepathic, 5, 30, 1, none, false⟩

theorem contactTele_phase :
    acFieldPhase (AlienContact.toRaw contactTele) = Except.ok contactTele :=
  acFieldPhase_build rfl rfl rfl rfl
    (by norm_num [AlienContact.checkSignalStrength, checkRequired,
      AlienContact.toRaw, RawField.val, contactTele])
    rfl rfl rfl rfl

/-- Field-valid leaderless mission with a bad id prefix. -/
def missionNoLeaderBadPrefix : SpaceMission :=
  ⟨"X2026", "Test Mission", "Moon", 0, 30, [memberCadet], "planned", 100⟩

theorem missionNoLeaderBadPrefix_phase :
    missionFieldPhase (SpaceMission.toRaw missionNoLeaderBadPrefix) =
      Except.ok missionNoLeaderBadPrefix :=
  missionFieldPhase_build rfl rfl rfl rfl rfl rfl rfl
    (by norm_num [SpaceMission.checkBudgetMillions, checkRequired,
      SpaceMission.toRaw, RawField.val, missionNoLeaderBadPrefix])

/-- The `main` moon mission: field-valid, good prefix, single cadet crew
(no captain or commander). -/
def missionNoLeader : SpaceMission :=
  ⟨"M2026_TEST", "Test Mission", "Moon", 0, 30, [memberCadet], "planned", 100⟩

theorem missionNoLeader_phase :
    missionFieldPhase (SpaceMission.toRaw missionNoLeader) =
      Except.ok missionNoLeader :=
  missionFieldPhase_build rfl rfl rfl rfl rfl rfl rfl
    (by norm_num [SpaceMission.checkBudgetMillions, checkRequired,
      SpaceMission.toRaw, RawField.val, missionNoLeader])

/-- Field-valid strong-signal contact with empty message and a bad id
prefix. -/
def contactBadPrefixEmpty : AlienContact :=
  ⟨"XX_2024_002", 0, "Desert Zone", ContactType.radio, 8.5, 30, 2,
   some "", false⟩

theorem contactBadPrefixEmpty_phase :
    acFieldPhase (AlienContact.toRaw contactBadPrefixEmpty) =
      Except.ok contactBadPrefixEmpty :=
  acFieldPhase_build rfl rfl rfl rfl
    (by norm_num [AlienContact.checkSignalStrength, checkRequired,
      AlienContact.toRaw, RawField.val, contactBadPrefixEmpty])
    rfl rfl rfl rfl

/-- Field-valid strong-signal visual contact with a good prefix and an
empty message. -/
def contactEmptyVisual : AlienContact :=
  ⟨"AC_2024_777", 0, "Roswell, New Mexico", ContactType.visual, 9, 10, 2,
   some "", false⟩

theorem contactEmptyVisual_phase :
    acFieldPhase (AlienContact.toRaw contactEmptyVisual) =
      Except.ok contactEmptyVisual :=
  acFieldPhase_build rfl rfl rfl rfl
    (by norm_num [AlienContact.checkSignalStrength, checkRequired,
      AlienContact.toRaw, RawField.val, contactEmptyVisual])
    rfl rfl rfl rfl

/-! ## The rule hooks fail on the first failing rule -/

/-- Index of the first failing `AlienContact` business rule, if any. -/
def acFirstFail (c : AlienContact) : Option Nat :=
  if acRuleFails c 0 then some 0
  else if acRuleFails c 1 then some 1
  else if acRuleFails c 2 then some 2
  else if acRuleFails c 3 then some 3
  else none

/-- Index of the first failing `SpaceMission` business rule, if any. -/
def missionFirstFail (m : SpaceMission) : Option Nat :=
  if missionRuleFails m 0 then some 0
  else if missionRuleFails m 1 then some 1
  else if missionRuleFails m 2 then some 2
  else if missionRuleFails m 3 then some 3
  else none

theorem validateAC_eq_firstFail {r : AlienContactRaw} {c : AlienContact}
    (hp : acFieldPhase r = Except.ok c) :
    validateAlienContact r =
      (match acFirstFail c with
       | some k => Except.error [Violation.rule (acRuleMsg k)]
       | none => Except.ok c) := by
  simp only [validateAlienContact, withRules, hp, validate_business_rules_eq,
    acFirstFail]
  by_cases h0 : acRuleFails c 0 = true <;> by_cases h1 : acRuleFails c 1 = true <;>
    by_cases h2 : acRuleFails c 2 = true <;> by_cases h3 : acRuleFails c 3 = true <;>
    simp [h0, h1, h2, h3]

theorem validateMission_eq_firstFail {r : SpaceMissionRaw} {m : SpaceMission}
    (hp : missionFieldPhase r = Except.ok m) :
    validateSpaceMission r =
      (match missionFirstFail m with
       | some k => Except.error [Violation.rule (missionRuleMsg k)]
       | none => Except.ok m) := by
  simp only [validateSpaceMission, withRules, hp, validate_mission_rules_eq,
    missionFirstFail]
  by_cases h0 : missionRuleFails m 0 = true <;>
    by_cases h1 : missionRuleFails m 1 = true <;>
    by_cases h2 : missionRuleFails m 2 = true <;>
    by_cases h3 : missionRuleFails m 3 = true <;>
    simp [h0, h1, h2, h3]

/-! ## Claim theorems -/

/-- C2: whenever at least one field-level check fails (missing required
field, failed coercion, or failed constraint), validation returns exactly
the accumulated field-level violations — none of which is a rule
violation — and the record-level rule hook is never consulted: the result
is the same for every conceivable hook. -/
theorem field_errors_gate_rules :
    (∀ r : AlienContactRaw, acFieldErrs r ≠ [] →
      validateAlienContact r = Except.error (acFieldErrs r) ∧
      (∀ hook : AlienContact → Except String AlienContact,
        withRules (acFieldPhase r) hook = Except.error (acFieldErrs r)) ∧
      ∀ v ∈ acFieldErrs r, v.isRule = false) ∧
    (∀ r : SpaceMissionRaw, missionFieldErrs r ≠ [] →
      validateSpaceMission r = Except.error (missionFieldErrs r) ∧
      (∀ hook : SpaceMission → Except String SpaceMission,
        withRules (missionFieldPhase r) hook =
          Except.error (missionFieldErrs r)) ∧
      ∀ v ∈ missionFieldErrs r, v.isRule = false) := by
  constructor
  · intro r h
    have hp := acFieldPhase_error h
    exact ⟨by simp [validateAlienContact, withRules, hp],
      fun hook => by simp [withRules, hp],
      fun v hv => acFieldErrs_notRule hv⟩
  · intro r h
    have hp := missionFieldPhase_error h
    exact ⟨by simp [validateSpaceMission, withRules, hp],
      fun hook => by simp [withRules, hp],
      fun v hv => missionFieldErrs_notRule hv⟩

/-- Witness for C2: a contact input missing `contact_id` and a mission
input missing `mission_id` are rejected with just that field violation,
whatever the rule hook does. -/
theorem field_errors_gate_rules_witness :
    (validateAlienContact acMissingRaw =
        Except.error [Violation.missing "contact_id"] ∧
      withRules (acFieldPhase acMissingRaw)
        (fun _ => Except.error "never evaluated") =
        Except.error [Violation.missing "contact_id"]) ∧
    (validateSpaceMission missionMissingRaw =
        Except.error [Violation.missing "mission_id"] ∧
      withRules (missionFieldPhase missionMissingRaw)
        (fun _ => Except.error "never evaluated") =
        Except.error [Violation.missing "mission_id"]) := by
  have hac := field_errors_gate_rules.1 acMissingRaw
    (by simp [acMissingRaw_errs])
  have hm := field_errors_gate_rules.2 missionMissingRaw
    (by simp [missionMissingRaw_errs])
  rw [acMissingRaw_errs] at hac
  rw [missionMissingRaw_errs] at hm
  exact ⟨⟨hac.1, hac.2.1 _⟩, hm.1, hm.2.1 _⟩

/-- C4: when two or more `SpaceStation` fields fail their checks,
validation reports one violation per offending field, in field
declaration order, with no rule violations mixed in. -/
theorem station_field_violations_accumulate :
    ∀ r : SpaceStationRaw, 2 ≤ (stationOffendingNames r).length →
      ∃ es, validateSpaceStation r = Except.error es ∧
        es.map Violation.fieldName = stationOffendingNames r ∧
        ∀ v ∈ es, v.isRule = false := by
  intro r h2
  have hne : stationFieldErrs r ≠ [] := by
    intro h0
    rw [← stationFieldErrs_names r, h0] at h2
    simp at h2
  exact ⟨stationFieldErrs r, stationFieldPhase_error hne,
    stationFieldErrs_names r, fun v hv => stationFieldErrs_notRule hv⟩

/-- Witness for C4: `crew_size=30` and `power_level=150` together yield
exactly the two constraint violations, in declaration order. -/
theorem station_field_violations_accumulate_witness :
    ∃ es, validateSpaceStation stationBadRaw = Except.error es ∧
      es.map Violation.fieldName = stationOffendingNames stationBadRaw ∧
      ∀ v ∈ es, v.isRule = false :=
  station_field_violations_accumulate stationBadRaw
    (by rw [stationBadRaw_names]; decide)

/-- C6: on fully valid inputs — every field present or defaulted, every
coercion and declared constraint satisfied, and the rule hook passing —
validation returns `Ok`, and every field of the returned record is
exactly the coerced input value produced by that field's check. -/
theorem valid_inputs_return_record :
    (∀ (r : SpaceStationRaw) (v1 v2 : String) (v3 : Int) (v4 v5 : ℚ)
      (v6 : Int) (v7 : Bool) (v8 : Option String),
      SpaceStation.checkStationId r = Except.ok v1 →
      SpaceStation.checkName r = Except.ok v2 →
      SpaceStation.checkCrewSize r = Except.ok v3 →
      SpaceStation.checkPowerLevel r = Except.ok v4 →
      SpaceStation.checkOxygenLevel r = Except.ok v5 →
      SpaceStation.checkLastMaintenance r = Except.ok v6 →
      SpaceStation.checkIsOperational r = Except.ok v7 →
      SpaceStation.checkNotes r = Except.ok v8 →
      validateSpaceStation r = Except.ok ⟨v1, v2, v3, v4, v5, v6, v7, v8⟩) ∧
    (∀ (r : AlienContactRaw) (v1 : String) (v2 : Int) (v3 : String)
      (v4 : ContactType) (v5 : ℚ) (v6 v7 : Int) (v8 : Option String)
      (v9 : Bool),
      AlienContact.checkContactId r = Except.ok v1 →
      AlienContact.checkTimestamp r = Except.ok v2 →
      AlienContact.checkLocation r = Except.ok v3 →
      AlienContact.checkContactType r = Except.ok v4 →
      AlienContact.checkSignalStrength r = Except.ok v5 →
      AlienContact.checkDurationMinutes r = Except.ok v6 →
      AlienContact.checkWitnessCount r = Except.ok v7 →
      AlienContact.checkMessageReceived r = Except.ok v8 →
      AlienContact.checkIsVerified r = Except.ok v9 →
      AlienContact.validate_business_rules ⟨v1, v2, v3, v4, v5, v6, v7, v8, v9⟩ =
        Except.ok ⟨v1, v2, v3, v4, v5, v6, v7, v8, v9⟩ →
      validateAlienContact r = Except.ok ⟨v1, v2, v3, v4, v5, v6, v7, v8, v9⟩) ∧
    (∀ (r : SpaceMissionRaw) (v1 v2 v3 : String) (v4 v5 : Int)
      (v6 : List CrewMember) (v7 : String) (v8 : ℚ),
      SpaceMission.checkMissionId r = Except.ok v1 →
      SpaceMission.checkMissionName r = Except.ok v2 →
      SpaceMission.checkDestination r = Except.ok v3 →
      SpaceMission.checkLaunchDate r = Except.ok v4 →
      SpaceMission.checkDurationDays r = Except.ok v5 →
      SpaceMission.checkCrew r = Except.ok v6 →
      SpaceMission.checkMissionStatus r = Except.ok v7 →
      SpaceMission.checkBudgetMillions r = Except.ok v8 →
      SpaceMission.validate_mission_rules ⟨v1, v2, v3, v4, v5, v6, v7, v8⟩ =
        Except.ok ⟨v1, v2, v3, v4, v5, v6, v7, v8⟩ →
      validateSpaceMission r = Except.ok ⟨v1, v2, v3, v4, v5, v6, v7, v8⟩) := by
  refine ⟨?_, ?_, ?_⟩
  · intro r v1 v2 v3 v4 v5 v6 v7 v8 h1 h2 h3 h4 h5 h6 h7 h8
    exact stationFieldPhase_build h1 h2 h3 h4 h5 h6 h7 h8
  · intro r v1 v2 v3 v4 v5 v6 v7 v8 v9 h1 h2 h3 h4 h5 h6 h7 h8 h9 hrules
    have hp := acFieldPhase_build h1 h2 h3 h4 h5 h6 h7 h8 h9
    simp [validateAlienContact, withRules, hp, hrules]
  · intro r v1 v2 v3 v4 v5 v6 v7 v8 h1 h2 h3 h4 h5 h6 h7 h8 hrules
    have hp := missionFieldPhase_build h1 h2 h3 h4 h5 h6 h7 h8
    simp [validateSpaceMission, withRules, hp, hrules]

/-- Witness for C6: the three valid records built in the scripts'
`main` functions validate to themselves. -/
theorem valid_inputs_return_record_witness :
    validateSpaceStation (SpaceStation.toRaw stationOk) = Except.ok stationOk ∧
    validateAlienContact (AlienContact.toRaw contactOk) = Except.ok contactOk ∧
    validateSpaceMission (SpaceMission.toRaw missionOk) = Except.ok missionOk := by
  refine ⟨?_, ?_, ?_⟩
  · exact valid_inputs_return_record.1 _ _ _ _ _ _ _ _ _ rfl rfl rfl
      (by norm_num [SpaceStation.checkPowerLevel, checkRequired,
        SpaceStation.toRaw, RawField.val, stationOk])
      (by norm_num [SpaceStation.checkOxygenLevel, checkRequired,
        SpaceStation.toRaw, RawField.val, stationOk])
      rfl rfl rfl
  · exact valid_inputs_return_record.2.1 _ _ _ _ _ _ _ _ _ _ rfl rfl rfl rfl
      (by norm_num [AlienContact.checkSignalStrength, checkRequired,
        AlienContact.toRaw, RawField.val, contactOk])
      rfl rfl rfl rfl contactOk_rules
  · exact valid_inputs_return_record.2.2 _ _ _ _ _ _ _ _ _ rfl rfl rfl rfl rfl
      rfl rfl
      (by norm_num [SpaceMission.checkBudgetMillions, checkRequired,
        SpaceMission.toRaw, RawField.val, missionOk])
      missionOk_rules

/-- C7: re-validating the raw rendering of a successfully validated
record succeeds and returns an equal record, for each of the four record
types. -/
theorem validate_idempotent :
    (∀ (r : SpaceStationRaw) (c : SpaceStation),
      validateSpaceStation r = Except.ok c →
      validateSpaceStation (SpaceStation.toRaw c) = Except.ok c) ∧
    (∀ (r : CrewMemberRaw) (c : CrewMember),
      validateCrewMember r = Except.ok c →
      validateCrewMember (CrewMember.toRaw c) = Except.ok c) ∧
    (∀ (r : AlienContactRaw) (c : AlienContact),
      validateAlienContact r = Except.ok c →
      validateAlienContact (AlienContact.toRaw c) = Except.ok c) ∧
    (∀ (r : SpaceMissionRaw) (m : SpaceMission),
      validateSpaceMission r = Except.ok m →
      validateSpaceMission (SpaceMission.toRaw m) = Except.ok m) := by
  refine ⟨?_, ?_, ?_, ?_⟩
  · exact fun r c h => stationFieldPhase_toRaw h
  · exact fun r c h => memberFieldPhase_toRaw h
  · intro r c h
    rw [validateAlienContact] at h
    cases hp : acFieldPhase r with
    | error es => simp [withRules, hp] at h
    | ok c0 =>
        rw [hp] at h
        simp only [withRules] at h
        cases hr : AlienContact.validate_business_rules c0 with
        | error m => simp [hr] at h
        | ok d =>
            rw [hr] at h
            injection h with h
            obtain rfl := ac_rules_ok_self hr
            obtain rfl := h
            simp [validateAlienContact, withRules, acFieldPhase_toRaw hp, hr]
  · intro r m h
    rw [validateSpaceMission] at h
    cases hp : missionFieldPhase r with
    | error es => simp [withRules, hp] at h
    | ok m0 =>
        rw [hp] at h
        simp only [withRules] at h
        cases hr : SpaceMission.validate_mission_rules m0 with
        | error s => simp [hr] at h
        | ok d =>
            rw [hr] at h
            injection h with h
            obtain rfl := mission_rules_ok_self hr
            obtain rfl := h
            simp [validateSpaceMission, withRules, missionFieldPhase_toRaw hp, hr]

/-- Witness for C7: the four concrete validated records re-validate to
themselves. -/
theorem validate_idempotent_witness :
    validateSpaceStation (SpaceStation.toRaw stationOk) = Except.ok stationOk ∧
    validateCrewMember (CrewMember.toRaw memberCommander) =
      Except.ok memberCommander ∧
    validateAlienContact (AlienContact.toRaw contactOk) = Except.ok contactOk ∧
    validateSpaceMission (SpaceMission.toRaw missionOk) = Except.ok missionOk := by
  refine ⟨?_, ?_, ?_, ?_⟩
  · exact validate_idempotent.1 _ _ stationOk_phase
  · exact validate_idempotent.2.1 _ _ memberCommander_phase
  · exact validate_idempotent.2.2.1 (AlienContact.toRaw contactOk) contactOk
      (by simp [validateAlienContact, withRules, contactOk_phase, contactOk_rules])
  · exact validate_idempotent.2.2.2 (SpaceMission.toRaw missionOk) missionOk
      (by simp [validateSpaceMission, withRules, missionOk_phase, missionOk_rules])

theorem ac_two_failing_rules {r : AlienContactRaw} {c : AlienContact}
    (hp : acFieldPhase r = Except.ok c) :
    ∀ i j : Nat, i < j → j < 4 → acRuleFails c i = true →
      acRuleFails c j = true →
      ∃ k, k ≤ i ∧ acRuleFails c k = true ∧
        (∀ l, l < k → acRuleFails c l = false) ∧
        validateAlienContact r = Except.error [Violation.rule (acRuleMsg k)] ∧
        acRuleMsg k ≠ acRuleMsg j := by
  intro i j hij hj4 hfi hfj
  have hv := validateAC_eq_firstFail hp
  by_cases h0 : acRuleFails c 0 = true
  · refine ⟨0, Nat.zero_le i, h0, fun l hl => absurd hl (Nat.not_lt_zero l),
      ?_, ?_⟩
    · rw [hv]; simp [acFirstFail, h0]
    · have h1j : 1 ≤ j := Nat.lt_of_le_of_lt (Nat.zero_le i) hij
      interval_cases j <;> decide
  · simp only [Bool.not_eq_true] at h0
    by_cases h1 : acRuleFails c 1 = true
    · have hi1 : 1 ≤ i := by
        rcases Nat.eq_zero_or_pos i with hi | hi
        · subst hi; simp [hfi] at h0
        · exact hi
      refine ⟨1, hi1, h1, ?_, ?_, ?_⟩
      · intro l hl; interval_cases l; exact h0
      · rw [hv]; simp [acFirstFail, h0, h1]
      · have h2j : 2 ≤ j := Nat.lt_of_le_of_lt hi1 hij
        interval_cases j <;> decide
    · simp only [Bool.not_eq_true] at h1
      by_cases h2 : acRuleFails c 2 = true
      · have hi2 : 2 ≤ i := by
          by_contra hlt
          push_neg at hlt
          interval_cases i
          · simp [hfi] at h0
          · simp [hfi] at h1
        refine ⟨2, hi2, h2, ?_, ?_, ?_⟩
        · intro l hl
          interval_cases l
          exacts [h0, h1]
        · rw [hv]; simp [acFirstFail, h0, h1, h2]
        · have h3j : j = 3 := by omega
          subst h3j; decide
      · exfalso
        simp only [Bool.not_eq_true] at h2
        have hi3 : i < 3 := by omega
        interval_cases i
        · simp [hfi] at h0
        · simp [hfi] at h1
        · simp [hfi] at h2

theorem mission_two_failing_rules {r : SpaceMissionRaw} {m : SpaceMission}
    (hp : missionFieldPhase r = Except.ok m) :
    ∀ i j : Nat, i < j → j < 4 → missionRuleFails m i = true →
      missionRuleFails m j = true →
      ∃ k, k ≤ i ∧ missionRuleFails m k = true ∧
        (∀ l, l < k → missionRuleFails m l = false) ∧
        validateSpaceMission r =
          Except.error [Violation.rule (missionRuleMsg k)] ∧
        missionRuleMsg k ≠ missionRuleMsg j := by
  intro i j hij hj4 hfi hfj
  have hv := validateMission_eq_firstFail hp
  by_cases h0 : missionRuleFails m 0 = true
  · refine ⟨0, Nat.zero_le i, h0, fun l hl => absurd hl (Nat.not_lt_zero l),
      ?_, ?_⟩
    · rw [hv]; simp [missionFirstFail, h0]
    · have h1j : 1 ≤ j := Nat.lt_of_le_of_lt (Nat.zero_le i) hij
      interval_cases j <;> decide
  · simp only [Bool.not_eq_true] at h0
    by_cases h1 : missionRuleFails m 1 = true
    · have hi1 : 1 ≤ i := by
        rcases Nat.eq_zero_or_pos i with hi | hi
        · subst hi; simp [hfi] at h0
        · exact hi
      refine ⟨1, hi1, h1, ?_, ?_, ?_⟩
      · intro l hl; interval_cases l; exact h0
      · rw [hv]; simp [missionFirstFail, h0, h1]
      · have h2j : 2 ≤ j := Nat.lt_of_le_of_lt hi1 hij
        interval_cases j <;> decide
    · simp only [Bool.not_eq_true] at h1
      by_cases h2 : missionRuleFails m 2 = true
      · have hi2 : 2 ≤ i := by
          by_contra hlt
          push_neg at hlt
          interval_cases i
          · simp [hfi] at h0
          · simp [hfi] at h1
        refine ⟨2, hi2, h2, ?_, ?_, ?_⟩
        · intro l hl
          interval_cases l
          exacts [h0, h1]
        · rw [hv]; simp [missionFirstFail, h0, h1, h2]
        · have h3j : j = 3 := by omega
          subst h3j; decide
      · exfalso
        simp only [Bool.not_eq_true] at h2
        have hi3 : i < 3 := by omega
        interval_cases i
        · simp [hfi] at h0
        · simp [hfi] at h1
        · simp [hfi] at h2

/-- C1: on a field-valid input with two (or more) failing business rules,
validation reports exactly one rule violation: the first failing rule in
declaration order (contact-id prefix, physical-verified,
telepathic-witnesses, strong-signal for `AlienContact`; mission-id
prefix, leader, experienced crew, all-active for `SpaceMission`); the
later failing rule's message is never the one reported. -/
theorem rules_short_circuit_first_failure :
    (∀ (r : AlienContactRaw) (c : AlienContact),
      acFieldPhase r = Except.ok c →
      ∀ i j : Nat, i < j → j < 4 → acRuleFails c i = true →
        acRuleFails c j = true →
        ∃ k, k ≤ i ∧ acRuleFails c k = true ∧
          (∀ l, l < k → acRuleFails c l = false) ∧
          validateAlienContact r =
            Except.error [Violation.rule (acRuleMsg k)] ∧
          acRuleMsg k ≠ acRuleMsg j) ∧
    (∀ (r : SpaceMissionRaw) (m : SpaceMission),
      missionFieldPhase r = Except.ok m →
      ∀ i j : Nat, i < j → j < 4 → missionRuleFails m i = true →
        missionRuleFails m j = true →
        ∃ k, k ≤ i ∧ missionRuleFails m k = true ∧
          (∀ l, l < k → missionRuleFails m l = false) ∧
          validateSpaceMission r =
            Except.error [Violation.rule (missionRuleMsg k)] ∧
          missionRuleMsg k ≠ missionRuleMsg j) :=
  ⟨fun _ _ hp => ac_two_failing_rules hp,
   fun _ _ hp => mission_two_failing_rules hp⟩

/-- Witness for C1: a contact failing the prefix rule (rule 0) and the
telepathic rule (rule 2), and a mission failing the prefix rule (rule 0)
and the leader rule (rule 1), each report only the first failure. -/
theorem rules_short_circuit_first_failure_witness :
    (∃ k, k ≤ 0 ∧ acRuleFails contactTwoBad k = true ∧
      (∀ l, l < k → acRuleFails contactTwoBad l = false) ∧
      validateAlienContact (AlienContact.toRaw contactTwoBad) =
        Except.error [Violation.rule (acRuleMsg k)] ∧
      acRuleMsg k ≠ acRuleMsg 2) ∧
    (∃ k, k ≤ 0 ∧ missionRuleFails missionTwoBad k = true ∧
      (∀ l, l < k → missionRuleFails missionTwoBad l = false) ∧
      validateSpaceMission (SpaceMission.toRaw missionTwoBad) =
        Except.error [Violation.rule (missionRuleMsg k)] ∧
      missionRuleMsg k ≠ missionRuleMsg 1) :=
  ⟨rules_short_circuit_first_failure.1 _ _ contactTwoBad_phase 0 2
      (by omega) (by omega) rfl rfl,
   rules_short_circuit_first_failure.2 _ _ missionTwoBad_phase 0 1
      (by omega) (by omega) rfl rfl⟩

/-- Counterexample to C3 as stated: `cexMission` is field-valid,
900 days long, and has too few experienced members (0 of 3), yet
validation does not fail with "Not enough experienced crew" — the
mission-id prefix rule fires first, so the claimed equivalence is false
at this input. -/
theorem experienced_rule_cex :
    missionFieldPhase (SpaceMission.toRaw cexMission) = Except.ok cexMission ∧
    365 < cexMission.duration_days ∧
    ((exprienced cexMission.crew : ℚ) < (cexMission.crew.length : ℚ) / 2) ∧
    validateSpaceMission (SpaceMission.toRaw cexMission) =
      Except.error [Violation.rule missionIdRuleMsg] ∧
    ¬ (validateSpaceMission (SpaceMission.toRaw cexMission) =
        Except.error [Violation.rule experiencedRuleMsg] ↔
      (exprienced cexMission.crew : ℚ) < (cexMission.crew.length : ℚ) / 2) := by
  have hr : SpaceMission.validate_mission_rules cexMission =
      Except.error missionIdRuleMsg := rfl
  have hval : validateSpaceMission (SpaceMission.toRaw cexMission) =
      Except.error [Violation.rule missionIdRuleMsg] := by
    simp [validateSpaceMission, withRules, cexMission_phase, hr]
  have hexp : ((exprienced cexMission.crew : ℚ) <
      (cexMission.crew.length : ℚ) / 2) := by
    have he : exprienced cexMission.crew = 0 := rfl
    have hl : cexMission.crew.length = 3 := rfl
    rw [he, hl]
    norm_num
  refine ⟨cexMission_phase, by norm_num [cexMission], hexp, hval, ?_⟩
  intro hiff
  have := hiff.mpr hexp
  rw [hval] at this
  simp only [Except.error.injEq, List.cons.injEq, Violation.rule.injEq] at this
  exact absurd this.1 (by decide)

/-- C3 as amended: on a field-valid mission longer than 365 days whose
earlier rules pass (mission id starts with "M" and a captain or commander
is aboard), validation fails with "Not enough experienced crew" exactly
when the number of members with 5+ years of experience is less than half
the crew size under true (rational) division. -/
theorem mission_experienced_rule_iff :
    ∀ (r : SpaceMissionRaw) (m : SpaceMission),
      missionFieldPhase r = Except.ok m →
      365 < m.duration_days →
      strStartsWith m.mission_id "M" = true →
      hasLeader m.crew = true →
      (validateSpaceMission r =
          Except.error [Violation.rule experiencedRuleMsg] ↔
        (exprienced m.crew : ℚ) < (m.crew.length : ℚ) / 2) := by
  intro r m hp hdur hpre hlead
  have hv := validateMission_eq_firstFail hp
  have h0 : missionRuleFails m 0 = false := by
    simp [missionRuleFails, hpre]
  have h1 : missionRuleFails m 1 = false := by
    simp [missionRuleFails, hlead]
  by_cases hq : (exprienced m.crew : ℚ) < (m.crew.length : ℚ) / 2
  · have h2 : missionRuleFails m 2 = true := by
      simp [missionRuleFails, hdur, hq]
    rw [hv]
    simp [missionFirstFail, missionRuleMsg, h0, h1, h2, hq]
  · have h2 : missionRuleFails m 2 = false := by
      simp [missionRuleFails, hq]
    rw [hv]
    by_cases h3 : missionRuleFails m 3 = true
    · simp only [missionFirstFail, h0, h1, h2, h3]
      simp only [Bool.false_eq_true, if_false, if_true]
      constructor
      · intro h
        simp only [Except.error.injEq, List.cons.injEq,
          Violation.rule.injEq] at h
        exact absurd h.1 (by decide)
      · intro h; exact absurd h hq
    · simp only [Bool.not_eq_true] at h3
      simp only [missionFirstFail, h0, h1, h2, h3]
      simp only [Bool.false_eq_true, if_false]
      constructor
      · intro h; cases h
      · intro h; exact absurd h hq

/-- Witness for C3 (amended): the `main` Mars mission with only 1 of 3
crew members experienced (1 < 1.5 under true division) fails with
"Not enough experienced crew". -/
theorem mission_experienced_rule_iff_witness :
    validateSpaceMission (SpaceMission.toRaw missionInexp) =
      Except.error [Violation.rule experiencedRuleMsg] := by
  refine (mission_experienced_rule_iff _ _ missionInexp_phase
    (by norm_num [missionInexp]) rfl rfl).mpr ?_
  have he : exprienced missionInexp.crew = 1 := rfl
  have hl : missionInexp.crew.length = 3 := rfl
  rw [he, hl]
  norm_num

theorem ruleError_msg_eq {β : Type} {m1 m2 : String}
    (h : (Except.error [Violation.rule m1] : Except (List Violation) β) =
      Except.error [Violation.rule m2]) : m1 = m2 := by
  simp only [Except.error.injEq, List.cons.injEq, Violation.rule.injEq] at h
  exact h.1

/-- Counterexample to C5 as stated: `contactEmptyMsg` is field-valid,
has `signal_strength = 8.5` and a populated (`some ""`) message, yet
validation fails with the strong-signal rule violation instead of
returning `Ok` — presence of the message is not what the rule tests. -/
theorem strong_signal_rule_cex :
    acFieldPhase (AlienContact.toRaw contactEmptyMsg) =
      Except.ok contactEmptyMsg ∧
    contactEmptyMsg.signal_strength = 8.5 ∧
    contactEmptyMsg.message_received ≠ none ∧
    validateAlienContact (AlienContact.toRaw contactEmptyMsg) =
      Except.error [Violation.rule strongSignalRuleMsg] := by
  have h0 : acRuleFails contactEmptyMsg 0 = false := rfl
  have h1 : acRuleFails contactEmptyMsg 1 = false := rfl
  have h2 : acRuleFails contactEmptyMsg 2 = false := rfl
  have h3 : acRuleFails contactEmptyMsg 3 = true := by
    simp [acRuleFails, optStrTruthy, contactEmptyMsg]
    norm_num
  refine ⟨contactEmptyMsg_phase, rfl, by simp [contactEmptyMsg], ?_⟩
  rw [validateAC_eq_firstFail contactEmptyMsg_phase]
  simp [acFirstFail, h0, h1, h2, h3, acRuleMsg]

/-- C5 as amended: on a field-valid contact with `signal_strength > 7.0`,
validation fails with the strong-signal rule violation exactly when the
three earlier rules pass and `message_received` is not truthy (absent or
empty); and when the earlier rules pass and the message is truthy,
validation returns `Ok`. -/
theorem strong_signal_rule_iff :
    ∀ (r : AlienContactRaw) (c : AlienContact),
      acFieldPhase r = Except.ok c →
      (7 : ℚ) < c.signal_strength →
      ((validateAlienContact r =
          Except.error [Violation.rule strongSignalRuleMsg]) ↔
        (acRuleFails c 0 = false ∧ acRuleFails c 1 = false ∧
         acRuleFails c 2 = false ∧
         optStrTruthy c.message_received = false)) ∧
      (acRuleFails c 0 = false → acRuleFails c 1 = false →
       acRuleFails c 2 = false → optStrTruthy c.message_received = true →
       validateAlienContact r = Except.ok c) := by
  intro r c hp hsig
  have hv := validateAC_eq_firstFail hp
  have e3 : acRuleFails c 3 = !(optStrTruthy c.message_received) := by
    simp [acRuleFails, hsig]
  refine ⟨?_, ?_⟩
  · by_cases h0 : acRuleFails c 0 = true
    · have hval : validateAlienContact r =
          Except.error [Violation.rule (acRuleMsg 0)] := by
        rw [hv]; simp [acFirstFail, h0]
      constructor
      · intro h
        exact absurd (ruleError_msg_eq (hval.symm.trans h)) (by decide)
      · rintro ⟨ha, -⟩
        simp [h0] at ha
    · simp only [Bool.not_eq_true] at h0
      by_cases h1 : acRuleFails c 1 = true
      · have hval : validateAlienContact r =
            Except.error [Violation.rule (acRuleMsg 1)] := by
          rw [hv]; simp [acFirstFail, h0, h1]
        constructor
        · intro h
          exact absurd (ruleError_msg_eq (hval.symm.trans h)) (by decide)
        · rintro ⟨-, hb, -⟩
          simp [h1] at hb
      · simp only [Bool.not_eq_true] at h1
        by_cases h2 : acRuleFails c 2 = true
        · have hval : validateAlienContact r =
              Except.error [Violation.rule (acRuleMsg 2)] := by
            rw [hv]; simp [acFirstFail, h0, h1, h2]
          constructor
          · intro h
            exact absurd (ruleError_msg_eq (hval.symm.trans h)) (by decide)
          · rintro ⟨-, -, hb, -⟩
            simp [h2] at hb
        · simp only [Bool.not_eq_true] at h2
          by_cases ht : optStrTruthy c.message_received = true
          · have h3 : acRuleFails c 3 = false := by rw [e3, ht]; rfl
            have hval : validateAlienContact r = Except.ok c := by
              rw [hv]; simp [acFirstFail, h0, h1, h2, h3]
            constructor
            · intro h
              rw [hval] at h; cases h
            · rintro ⟨-, -, -, hb⟩
              simp [ht] at hb
          · simp only [Bool.not_eq_true] at ht
            have h3 : acRuleFails c 3 = true := by rw [e3, ht]; rfl
            have hval : validateAlienContact r =
                Except.error [Violation.rule (acRuleMsg 3)] := by
              rw [hv]; simp [acFirstFail, h0, h1, h2, h3]
            exact ⟨fun _ => ⟨h0, h1, h2, ht⟩, fun _ => hval⟩
  · intro g0 g1 g2 gt
    have h3 : acRuleFails c 3 = false := by rw [e3, gt]; rfl
    rw [hv]; simp [acFirstFail, g0, g1, g2, h3]

/-- Witness for C5 (amended): the `main` contact with signal 8.5 and a
non-empty message passes all rules and validates to itself. -/
theorem strong_signal_rule_iff_witness :
    validateAlienContact (AlienContact.toRaw contactOk) = Except.ok contactOk :=
  (strong_signal_rule_iff _ _ contactOk_phase (by norm_num [contactOk])).2
    rfl rfl rfl rfl

/-- Counterexample to C8 as stated: `contactBadPrefixTele` is field-valid,
telepathic, with 1 witness, yet the reported violation is the contact-id
prefix rule, not "Telepathic contact requires at least 3 witnesses" —
the prefix rule fires first. -/
theorem telepathic_rule_cex :
    acFieldPhase (AlienContact.toRaw contactBadPrefixTele) =
      Except.ok contactBadPrefixTele ∧
    contactBadPrefixTele.contact_type = ContactType.telepathic ∧
    contactBadPrefixTele.witness_count < 3 ∧
    validateAlienContact (AlienContact.toRaw contactBadPrefixTele) =
      Except.error [Violation.rule contactIdRuleMsg] ∧
    validateAlienContact (AlienContact.toRaw contactBadPrefixTele) ≠
      Except.error [Violation.rule telepathicRuleMsg] := by
  have h0 : acRuleFails contactBadPrefixTele 0 = true := rfl
  have hval : validateAlienContact (AlienContact.toRaw contactBadPrefixTele) =
      Except.error [Violation.rule contactIdRuleMsg] := by
    rw [validateAC_eq_firstFail contactBadPrefixTele_phase]
    simp [acFirstFail, h0, acRuleMsg]
  refine ⟨contactBadPrefixTele_phase, rfl, by norm_num [contactBadPrefixTele],
    hval, ?_⟩
  intro h
  rw [hval] at h
  exact absurd (ruleError_msg_eq h) (by decide)

/-- C8 as amended: a field-valid telepathic contact with fewer than 3
witnesses whose contact id does start with "AC" is rejected with exactly
the telepathic-witnesses rule violation (and no field violation). -/
theorem telepathic_rule_first_error :
    ∀ (r : AlienContactRaw) (c : AlienContact),
      acFieldPhase r = Except.ok c →
      c.contact_type = ContactType.telepathic →
      c.witness_count < 3 →
      strStartsWith c.contact_id "AC" = true →
      validateAlienContact r = Except.error [Violation.rule telepathicRuleMsg] := by
  intro r c hp htype hwit hpre
  have h0 : acRuleFails c 0 = false := by simp [acRuleFails, hpre]
  have h1 : acRuleFails c 1 = false := by simp [acRuleFails, htype]
  have h2 : acRuleFails c 2 = true := by simp [acRuleFails, htype, hwit]
  rw [validateAC_eq_firstFail hp]
  simp [acFirstFail, h0, h1, h2, acRuleMsg]

/-- Witness for C8 (amended): a good-prefix telepathic contact with one
witness is rejected with the telepathic-witnesses message. -/
theorem telepathic_rule_first_error_witness :
    validateAlienContact (AlienContact.toRaw contactTele) =
      Except.error [Violation.rule telepathicRuleMsg] :=
  telepathic_rule_first_error _ _ contactTele_phase rfl
    (by norm_num [contactTele]) rfl

/-- Counterexample to C9 as stated: `missionNoLeaderBadPrefix` is
field-valid with a leaderless crew, yet the reported violation is the
mission-id prefix rule, not "Mission must have at least one Commander or
Captain". -/
theorem leader_rule_cex :
    missionFieldPhase (SpaceMission.toRaw missionNoLeaderBadPrefix) =
      Except.ok missionNoLeaderBadPrefix ∧
    hasLeader missionNoLeaderBadPrefix.crew = false ∧
    validateSpaceMission (SpaceMission.toRaw missionNoLeaderBadPrefix) =
      Except.error [Violation.rule missionIdRuleMsg] ∧
    validateSpaceMission (SpaceMission.toRaw missionNoLeaderBadPrefix) ≠
      Except.error [Violation.rule leaderRuleMsg] := by
  have h0 : missionRuleFails missionNoLeaderBadPrefix 0 = true := rfl
  have hval : validateSpaceMission (SpaceMission.toRaw missionNoLeaderBadPrefix) =
      Except.error [Violation.rule missionIdRuleMsg] := by
    rw [validateMission_eq_firstFail missionNoLeaderBadPrefix_phase]
    simp [missionFirstFail, h0, missionRuleMsg]
  refine ⟨missionNoLeaderBadPrefix_phase, rfl, hval, ?_⟩
  intro h
  rw [hval] at h
  exact absurd (ruleError_msg_eq h) (by decide)

/-- C9 as amended: on a field-valid mission whose id starts with "M",
validation fails with the leader rule violation exactly when no crew
member is a captain or commander; when such a member exists the leader
rule passes (that message is never reported). -/
theorem mission_leader_rule :
    ∀ (r : SpaceMissionRaw) (m : SpaceMission),
      missionFieldPhase r = Except.ok m →
      strStartsWith m.mission_id "M" = true →
      (hasLeader m.crew = false →
        validateSpaceMission r = Except.error [Violation.rule leaderRuleMsg]) ∧
      (hasLeader m.crew = true →
        validateSpaceMission r ≠ Except.error [Violation.rule leaderRuleMsg]) := by
  intro r m hp hpre
  have hv := validateMission_eq_firstFail hp
  have h0 : missionRuleFails m 0 = false := by simp [missionRuleFails, hpre]
  constructor
  · intro hl
    have h1 : missionRuleFails m 1 = true := by simp [missionRuleFails, hl]
    rw [hv]
    simp [missionFirstFail, h0, h1, missionRuleMsg]
  · intro hl
    have h1 : missionRuleFails m 1 = false := by simp [missionRuleFails, hl]
    rw [hv]
    by_cases h2 : missionRuleFails m 2 = true
    · simp only [missionFirstFail, h0, h1, h2]
      simp only [Bool.false_eq_true, if_false, if_true]
      intro h
      exact absurd (ruleError_msg_eq h) (by decide)
    · simp only [Bool.not_eq_true] at h2
      by_cases h3 : missionRuleFails m 3 = true
      · simp only [missionFirstFail, h0, h1, h2, h3]
        simp only [Bool.false_eq_true, if_false, if_true]
        intro h
        exact absurd (ruleError_msg_eq h) (by decide)
      · simp only [Bool.not_eq_true] at h3
        simp only [missionFirstFail, h0, h1, h2, h3]
        simp only [Bool.false_eq_true, if_false]
        intro h
        cases h

/-- Witness for C9 (amended): the `main` moon mission (good prefix,
single cadet crew) is rejected with the leader-rule message, and the
`main` Mars mission (commander aboard) is never rejected with it. -/
theorem mission_leader_rule_witness :
    validateSpaceMission (SpaceMission.toRaw missionNoLeader) =
      Except.error [Violation.rule leaderRuleMsg] ∧
    validateSpaceMission (SpaceMission.toRaw missionOk) ≠
      Except.error [Violation.rule leaderRuleMsg] :=
  ⟨(mission_leader_rule _ _ missionNoLeader_phase rfl).1 rfl,
   (mission_leader_rule _ _ missionOk_phase rfl).2 rfl⟩

/-- Counterexample to C10 as stated: `contactBadPrefixEmpty` is
field-valid with signal 8.5 and an empty-string message, and it is
rejected — but with the contact-id prefix violation, not the
strong-signal one, because the prefix rule fires first. -/
theorem empty_message_cex :
    acFieldPhase (AlienContact.toRaw contactBadPrefixEmpty) =
      Except.ok contactBadPrefixEmpty ∧
    contactBadPrefixEmpty.message_received = some "" ∧
    validateAlienContact (AlienContact.toRaw contactBadPrefixEmpty) =
      Except.error [Violation.rule contactIdRuleMsg] ∧
    validateAlienContact (AlienContact.toRaw contactBadPrefixEmpty) ≠
      Except.error [Violation.rule strongSignalRuleMsg] := by
  have h0 : acRuleFails contactBadPrefixEmpty 0 = true := rfl
  have hval : validateAlienContact (AlienContact.toRaw contactBadPrefixEmpty) =
      Except.error [Violation.rule contactIdRuleMsg] := by
    rw [validateAC_eq_firstFail contactBadPrefixEmpty_phase]
    simp [acFirstFail, h0, acRuleMsg]
  refine ⟨contactBadPrefixEmpty_phase, rfl, hval, ?_⟩
  intro h
  rw [hval] at h
  exact absurd (ruleError_msg_eq h) (by decide)

/-- C10 as amended: a field-valid contact with `signal_strength > 7.0`
and `message_received = some ""` that passes the three earlier rules is
rejected with the strong-signal rule violation — the rule tests
truthiness, so the hook treats an empty-string message exactly like an
absent one. -/
theorem empty_message_fails_strong_signal :
    ∀ (r : AlienContactRaw) (c : AlienContact),
      acFieldPhase r = Except.ok c →
      (7 : ℚ) < c.signal_strength →
      c.message_received = some "" →
      acRuleFails c 0 = false → acRuleFails c 1 = false →
      acRuleFails c 2 = false →
      validateAlienContact r =
        Except.error [Violation.rule strongSignalRuleMsg] ∧
      AlienContact.validate_business_rules c =
        AlienContact.validate_business_rules
          { c with message_received := none } := by
  intro r c hp hsig hmsg h0 h1 h2
  have ht : optStrTruthy c.message_received = false := by rw [hmsg]; rfl
  have h3 : acRuleFails c 3 = true := by simp [acRuleFails, hsig, ht]
  constructor
  · rw [validateAC_eq_firstFail hp]
    simp [acFirstFail, h0, h1, h2, h3, acRuleMsg]
  · have hc0 : acRuleFails { c with message_received := none } 0 =
        acRuleFails c 0 := rfl
    have hc1 : acRuleFails { c with message_received := none } 1 =
        acRuleFails c 1 := rfl
    have hc2 : acRuleFails { c with message_received := none } 2 =
        acRuleFails c 2 := rfl
    have h3n : acRuleFails { c with message_received := none } 3 = true := by
      simp [acRuleFails, hsig, optStrTruthy]
    rw [validate_business_rules_eq c,
      validate_business_rules_eq { c with message_received := none },
      hc0, hc1, hc2]
    simp [h0, h1, h2, h3, h3n]

/-- Witness for C10 (amended): a good-prefix visual contact with signal 9
and an empty message is rejected with the strong-signal message, and its
rule hook result is unchanged when the empty message is dropped. -/
theorem empty_message_fails_strong_signal_witness :
    validateAlienContact (AlienContact.toRaw contactEmptyVisual) =
      Except.error [Violation.rule strongSignalRuleMsg] ∧
    AlienContact.validate_business_rules contactEmptyVisual =
      AlienContact.validate_business_rules
        { contactEmptyVisual with message_received := none } :=
  empty_message_fails_strong_signal _ _ contactEmptyVisual_phase
    (by norm_num [contactEmptyVisual]) rfl rfl rfl rfl
